import Mathlib

/-!
# PDCurses `initscr.c`: session lifecycle

A shallow embedding of `pdcurses/initscr.c` (Xinitscr, initscr, endwin,
isendwin, newterm, set_term, delscreen, resize_term, is_termresized,
curses_version) and theorems about the layout it computes.

Conventions of the embedding

* The globals of the file (`SP`, `curscr`, `stdscr`, `LINES`, `COLS`,
  `TABSIZE`, `Mouse_status`) and the externs it uses (`linesripped` with its
  counter `linesrippedoff`, and `pdc_atrtab`) are the fields of `State`.
* C `int` values are `Int`; signed overflow is undefined in C and is not
  modelled. `TRUE`/`FALSE` are `Bool`. A pointer that may be `NULL` is an
  `Option`.
* Every function of another translation unit that `initscr.c` calls
  (the platform driver `PDC_*`, the window factory `newwin`/`resize_window`,
  the soft-label-key subsystem, the tty-mode helpers) is recorded, in call
  order, in `State.trace`. Where the file uses the value such a call returns,
  the value comes from `Env`, which receives the trace of the calls made so
  far, so that the same call may answer differently at different moments.
  Such a call writes none of the globals above, with three exceptions:
  `PDC_scr_open` allocates `SP` (and `pdc_atrtab`), `PDC_slk_initialize` sets
  `SP->slklines` and `SP->slk_winptr`, both relied on by the code of
  `Xinitscr`, and a `PDC_resize_screen` that accepts the request clears
  `SP->resized` (`acknowledgeResize`, taken from the spec: the driver is the
  only code that sets or clears that flag after line 153).
* A long function is cut into consecutive blocks, each a definition that names
  the lines it embeds.
* `PDC_LOG` is a debugging no-op and is left out.
-/

namespace PDCurses

/-- A `WINDOW` as far as `initscr.c` looks into it: the address the pointer
holds and the `_clear` flag, the only member the file writes. -/
structure WINDOW where
  addr : Nat
  _clear : Bool
  deriving DecidableEq, Repr

/-- The members of `SCREEN` that `initscr.c` reads or writes, and the address
of the structure (`delscreen` and `set_term` compare `SCREEN` pointers). -/
structure SCREEN where
  addr : Nat
  alive : Bool
  autocr : Bool
  cbreak : Bool
  echo : Bool
  raw_inp : Bool
  raw_out : Bool
  audible : Bool
  resized : Bool
  orig_cursor : Int
  visibility : Int
  lines : Int
  cols : Int
  _trap_mbe : Int
  _map_mbe_to_key : Int
  linesrippedoff : Int
  linesrippedoffontop : Int
  delaytenths : Int
  _preserve : Bool
  save_key_modifiers : Bool
  return_key_modifiers : Bool
  line_color : Int
  slklines : Int
  slk_winptr : Option WINDOW
  deriving DecidableEq, Repr

/-- One entry of `linesripped[]`: `line < 0` asks for a strip at the bottom,
anything else for a strip at the top; `init` names the callback. -/
structure RIPPEDOFFLINE where
  line : Int
  init : Nat
  deriving DecidableEq, Repr

/-- The members of `Mouse_status` written by `Xinitscr` through the macros
`MOUSE_X_POS`, `MOUSE_Y_POS`, `BUTTON_STATUS(1..3)` and directly (`changes`). -/
structure MOUSE_STATUS where
  x : Int
  y : Int
  button1 : Int
  button2 : Int
  button3 : Int
  changes : Int
  deriving DecidableEq, Repr

/-- The `int` status of the curses API. -/
inductive RetCode where
  | OK
  | ERR
  deriving DecidableEq, Repr

/-- A call that `initscr.c` makes into another translation unit, with the
arguments it passes. `fprintf` is the message written to `stderr` (format and
integer arguments); `init` is the call `(*linesripped[i].init)(win, COLS)`. -/
inductive Event where
  | PDC_scr_open (argc : Int) (argv : List String)
  | PDC_get_cursor_mode
  | newwin (nlines ncols begy begx : Int)
  | PDC_slk_initialize
  | init (callback : Nat) (win : Option WINDOW) (cols : Int)
  | wclrtobot (win : Option WINDOW)
  | untouchwin (win : Option WINDOW)
  | PDC_init_atrtab
  | def_shell_mode
  | def_prog_mode
  | PDC_scr_close
  | PDC_slk_free
  | delwin (win : Option WINDOW)
  | PDC_scr_free
  | PDC_resize_screen (nlines ncols : Int)
  | PDC_get_rows
  | PDC_get_columns
  | resize_window (win : Option WINDOW) (nlines ncols : Int)
  | wmove (win : Option WINDOW) (y x : Int)
  | slk_noutrefresh
  | touchwin (win : Option WINDOW)
  | wnoutrefresh (win : Option WINDOW)
  | fprintf (format : String) (args : List Int)
  deriving DecidableEq, Repr

/-- The globals of `initscr.c` and the externs it uses. `linesripped` holds
the entries `linesripped[0 .. linesrippedoff)` of the C array in registration
order, so the C counter `linesrippedoff` is its length and `linesrippedoff = 0`
empties it. `trace` is the list of external calls made so far. -/
structure State where
  SP : Option SCREEN
  curscr : Option WINDOW
  stdscr : Option WINDOW
  LINES : Int
  COLS : Int
  TABSIZE : Int
  Mouse_status : MOUSE_STATUS
  linesripped : List RIPPEDOFFLINE
  pdc_atrtab : Option Nat
  trace : List Event
  deriving DecidableEq, Repr

/-- The answers of the code that `initscr.c` calls but does not contain. Each
field gets the trace of the calls made before this one.

* `PDC_scr_open`: `none` is `ERR`; otherwise the `SCREEN` the driver allocated
  for `SP` (with the geometry in `lines`, `cols`) and the `pdc_atrtab` it
  allocated.
* `newwin`, `resize_window`: `none` is `NULL`.
* `PDC_resize_screen`: the status it returns; what an accepted request does to
  `SP->resized` is `acknowledgeResize`.
* `PDC_slk_initialize`: the values of
  `SP->slklines` and `SP->slk_winptr` it leaves, given `SP` before the call;
  it writes no other member that `initscr.c` uses.
* `BUTTON_RELEASED` is the constant of `curses.h`. -/
structure Env where
  PDC_scr_open : List Event → Int → List String → Option (SCREEN × Option Nat)
  PDC_get_cursor_mode : List Event → Int
  newwin : List Event → Int → Int → Int → Int → Option WINDOW
  PDC_slk_initialize : List Event → SCREEN → Int × Option WINDOW
  PDC_resize_screen : List Event → Int → Int → RetCode
  PDC_get_rows : List Event → Int
  PDC_get_columns : List Event → Int
  resize_window : List Event → Option WINDOW → Int → Int → Option WINDOW
  BUTTON_RELEASED : Int

/-- How a call of one of the API functions ends: it returns `val`, it calls
`exit(code)`, or it dereferences a `NULL` pointer (`fault`). `st` is the state
at that moment. -/
inductive Outcome (α : Type) where
  | ret (val : α) (st : State)
  | exit (code : Int) (st : State)
  | fault (st : State)
  deriving DecidableEq, Repr

/-- Record an external call. -/
def log (st : State) (e : Event) : State :=
  { st with trace := st.trace ++ [e] }

/-- The globals as the initialisers at lines 21-27 leave them, with no strip
registered. -/
def State.initial : State :=
  { SP := none, curscr := none, stdscr := none, LINES := 0, COLS := 0,
    TABSIZE := 8,
    Mouse_status := { x := 0, y := 0, button1 := 0, button2 := 0, button3 := 0, changes := 0 },
    linesripped := [], pdc_atrtab := none, trace := [] }

/-- One pass of the loop body at lines 187-195, for the entry `r` of
`linesripped[]`; `sp` is `*SP`. A bottom strip (`line < 0`) is created at row
`LINES - 1`, a top strip at row `SP->linesrippedoffontop++`; either way the
callback gets the window (possibly `NULL`) and `COLS`, then
`SP->linesrippedoff++; LINES--`. -/
def ripStep (env : Env) (r : RIPPEDOFFLINE) (sp : SCREEN) (st : State) : SCREEN × State :=
  if r.line < 0 then
    let win := env.newwin st.trace 1 st.COLS (st.LINES - 1) 0
    let st := log st (.newwin 1 st.COLS (st.LINES - 1) 0)
    let st := log st (.init r.init win st.COLS)
    let sp := { sp with linesrippedoff := sp.linesrippedoff + 1 }
    (sp, { st with SP := some sp, LINES := st.LINES - 1 })
  else
    let win := env.newwin st.trace 1 st.COLS sp.linesrippedoffontop 0
    let st := log st (.newwin 1 st.COLS sp.linesrippedoffontop 0)
    let sp := { sp with linesrippedoffontop := sp.linesrippedoffontop + 1 }
    let st := log st (.init r.init win st.COLS)
    let sp := { sp with linesrippedoff := sp.linesrippedoff + 1 }
    (sp, { st with SP := some sp, LINES := st.LINES - 1 })

/-- The loop at lines 185-196 over `linesripped[i]`, `i < linesrippedoff`. -/
def ripLoop (env : Env) : List RIPPEDOFFLINE → SCREEN → State → SCREEN × State
  | [], sp, st => (sp, st)
  | r :: rest, sp, st => ripLoop env rest (ripStep env r sp st).1 (ripStep env r sp st).2

/-- The assignments at lines 144-159 to `*SP`. -/
def initSP (sp : SCREEN) : SCREEN :=
  { sp with
    autocr := true, raw_out := false, raw_inp := false, cbreak := true,
    save_key_modifiers := false, return_key_modifiers := false, echo := false,
    visibility := 1, audible := true, resized := false, _trap_mbe := 0,
    _map_mbe_to_key := 0, linesrippedoff := 0, linesrippedoffontop := 0,
    delaytenths := 0, line_color := -1 }

/-- Lines 207-232 of `Xinitscr`, after `stdscr` has been created as `sw`:
clear it, honour `SP->_preserve`, reset the mouse status, mark the session
alive and return `stdscr`. `sp` is `*SP`. -/
def finishOpen (env : Env) (sp : SCREEN) (sw : WINDOW) (st : State) :
    Outcome (Option WINDOW) :=
  let st := log st (.wclrtobot st.stdscr)
  let st :=
    if sp._preserve then
      let st := log st (.untouchwin st.curscr)
      let st := log st (.untouchwin st.stdscr)
      { st with stdscr := some { sw with _clear := false } }
    else st
  let st := { st with curscr := st.curscr.map fun c => { c with _clear := false } }
  let st := log st .PDC_init_atrtab
  let st := { st with Mouse_status :=
    { st.Mouse_status with
      x := -1, y := -1, button1 := env.BUTTON_RELEASED,
      button2 := env.BUTTON_RELEASED, button3 := env.BUTTON_RELEASED, changes := 0 } }
  let sp := { sp with alive := true }
  let st := { st with SP := some sp }
  let st := log st .def_shell_mode
  .ret st.stdscr st

/-- Lines 198-205 of `Xinitscr`: forget the registrations (`linesrippedoff =
0`) and create `stdscr` below the top strips; `exit(1)` when that fails.
`sp` is `*SP`. -/
def stdscrOpen (env : Env) (sp : SCREEN) (st : State) : Outcome (Option WINDOW) :=
  let st := { st with linesripped := [] }
  let sw := env.newwin st.trace st.LINES st.COLS sp.linesrippedoffontop 0
  let st := log st (.newwin st.LINES st.COLS sp.linesrippedoffontop 0)
  let st := { st with stdscr := sw }
  match sw with
  | none => .exit 1 (log st (.fprintf "initscr(): Unable to create stdscr.\n" []))
  | some w => finishOpen env sp w st

/-- Lines 179-196 of `Xinitscr`: the status strip (`PDC_slk_initialize();
LINES -= SP->slklines`) and the loop over the ripped-off lines. `sp` is `*SP`. -/
def stripsOpen (env : Env) (sp : SCREEN) (st : State) : Outcome (Option WINDOW) :=
  let slk := env.PDC_slk_initialize st.trace sp
  let st := log st Event.PDC_slk_initialize
  let sp := { sp with slklines := slk.1, slk_winptr := slk.2 }
  let st := { st with SP := some sp }
  let st := { st with LINES := st.LINES - sp.slklines }
  let r := ripLoop env st.linesripped sp st
  stdscrOpen env r.1 r.2

/-- Lines 163-177 of `Xinitscr`, once `SP` is set up (`sp` is `*SP`): `LINES`
and `COLS` from the driver's geometry, the size check (`exit(4)`) and the
creation of `curscr` (`exit(2)` when it fails). -/
def layoutOpen (env : Env) (sp : SCREEN) (st : State) : Outcome (Option WINDOW) :=
  let st := { st with LINES := sp.lines }
  let st := { st with COLS := sp.cols }
  if st.LINES < 2 ∨ st.COLS < 2 then
    .exit 4 (log st (.fprintf "initscr(): LINES=%d COLS=%d: too small.\n" [st.LINES, st.COLS]))
  else
    let cw := env.newwin st.trace st.LINES st.COLS 0 0
    let st := log st (.newwin st.LINES st.COLS 0 0)
    let st := { st with curscr := cw }
    if cw = none then
      .exit 2 (log st (.fprintf "initscr(): Unable to create curscr.\n" []))
    else
      stripsOpen env sp st

/-- The function `Xinitscr(argc, argv)`, lines 129-233. -/
def Xinitscr (env : Env) (argc : Int) (argv : List String) (st : State) :
    Outcome (Option WINDOW) :=
  if (match st.SP with
      | some sp => sp.alive
      | none => false) then
    .ret none st
  else
    let opened := env.PDC_scr_open st.trace argc argv
    let st := log st (.PDC_scr_open argc argv)
    match opened with
    | none => .exit 8 (log st (.fprintf "initscr(): Unable to create SP\n" []))
    | some (sp, atrtab) =>
      let st := { st with pdc_atrtab := atrtab }
      let sp := initSP sp
      let mode := env.PDC_get_cursor_mode st.trace
      let st := log st .PDC_get_cursor_mode
      let sp := { sp with orig_cursor := mode }
      let st := { st with SP := some sp }
      layoutOpen env sp st

/-- The function `initscr()`, lines 235-240. -/
def initscr (env : Env) (st : State) : Outcome (Option WINDOW) :=
  Xinitscr env 0 [] st

/-- The function `endwin()`, lines 242-254. -/
def endwin (st : State) : Outcome RetCode :=
  let st := log st .def_prog_mode
  let st := log st .PDC_scr_close
  match st.SP with
  | none => .fault st
  | some sp => .ret .OK { st with SP := some { sp with alive := false } }

/-- The function `isendwin()`, lines 256-261. -/
def isendwin (st : State) : Outcome Bool :=
  match st.SP with
  | none => .fault st
  | some sp => .ret (!sp.alive) st

/-- The function `newterm(type, outfd, infd)`, lines 263-272; the three
arguments are ignored by the code. The result is `SP` or `NULL`. -/
def newterm (env : Env) (type : String) (outfd infd : Nat) (st : State) :
    Outcome (Option SCREEN) :=
  match Xinitscr env 0 [] st with
  | .ret result st => .ret (if result.isSome then st.SP else none) st
  | .exit code st => .exit code st
  | .fault st => .fault st

/-- The function `set_term(new)`, lines 274-281: a comparison of pointers. -/
def set_term (new : Option Nat) (st : State) : Outcome (Option SCREEN) :=
  .ret (if new = st.SP.map SCREEN.addr then st.SP else none) st

/-- The function `delscreen(sp)`, lines 283-303. -/
def delscreen (sp : Option Nat) (st : State) : Outcome Unit :=
  if sp ≠ st.SP.map SCREEN.addr then
    .ret () st
  else
    let st := log st .PDC_slk_free
    let st := log st (.delwin st.stdscr)
    let st := log st (.delwin st.curscr)
    let st := { st with stdscr := none }
    let st := { st with curscr := none }
    match st.SP with
    | none => .fault st
    | some s =>
      let st := { st with SP := some { s with alive := false } }
      let st := log st .PDC_scr_free
      let st := { st with SP := none }
      .ret () { st with pdc_atrtab := none }

/-- Lines 320-335 of `resize_term`: the status strip, then the repaint of
`stdscr`. `sp` is `*SP`. -/
def resizeSlk (env : Env) (sp : SCREEN) (st : State) : Outcome RetCode :=
  match sp.slk_winptr with
  | some slkw =>
    let w := env.resize_window st.trace (some slkw) sp.slklines st.COLS
    let st := log st (.resize_window (some slkw) sp.slklines st.COLS)
    let sp := { sp with slk_winptr := w }
    let st := { st with SP := some sp }
    if w = none then
      .ret .ERR st
    else
      let st := log st (.wmove sp.slk_winptr 0 0)
      let st := log st (.wclrtobot sp.slk_winptr)
      let slk := env.PDC_slk_initialize st.trace sp
      let st := log st Event.PDC_slk_initialize
      let sp := { sp with slklines := slk.1, slk_winptr := slk.2 }
      let st := { st with SP := some sp }
      let st := log st .slk_noutrefresh
      let st := log st (.touchwin st.stdscr)
      let st := log st (.wnoutrefresh st.stdscr)
      .ret .OK st
  | none =>
    let st := log st (.touchwin st.stdscr)
    let st := log st (.wnoutrefresh st.stdscr)
    .ret .OK st

/-- Lines 316-318 of `resize_term`: `curscr` and `stdscr` are replaced by
what `resize_window` returns for them, `ERR` when that is `NULL`; then the
status strip. `sp` is `*SP`. -/
def resizeWindows (env : Env) (sp : SCREEN) (st : State) : Outcome RetCode :=
  let cw := env.resize_window st.trace st.curscr sp.lines sp.cols
  let st := log st (.resize_window st.curscr sp.lines sp.cols)
  let st := { st with curscr := cw }
  if cw = none then
    .ret .ERR st
  else
    let sw := env.resize_window st.trace st.stdscr st.LINES st.COLS
    let st := log st (.resize_window st.stdscr st.LINES st.COLS)
    let st := { st with stdscr := sw }
    if sw = none then
      .ret .ERR st
    else
      resizeSlk env sp st

/-- Lines 312-314 of `resize_term`: `SP->lines = PDC_get_rows(); LINES =
SP->lines - SP->linesrippedoff - SP->slklines; SP->cols = COLS =
PDC_get_columns()`. `sp` is `*SP`; the result is the new `*SP` and state. -/
def storeGeometry (env : Env) (sp : SCREEN) (st : State) : SCREEN × State :=
  let rows := env.PDC_get_rows st.trace
  let st := log st .PDC_get_rows
  let sp := { sp with lines := rows }
  let st := { st with SP := some sp }
  let st := { st with LINES := sp.lines - sp.linesrippedoff - sp.slklines }
  let columns := env.PDC_get_columns st.trace
  let st := log st .PDC_get_columns
  let st := { st with COLS := columns }
  let sp := { sp with cols := st.COLS }
  (sp, { st with SP := some sp })

/-- Modelled from the spec: the driver function `PDC_resize_screen`, which
`resize_term` calls at line 309, is not in `initscr.c`, and it is the only
code on the way through `resize_term` that can write `SP->resized`: the file
itself writes the flag at line 153 only. The spec says of the flag "set when
the driver reports an out-of-band geometry change not yet acknowledged by a
resize call; cleared by a successful resize", and lists "Clear the pending
`resized` flag" among the steps of a resize; the man page (lines 101-102) says
that the flag is `TRUE` while "a call to resize_term() is needed". This is
`*SP` as a `PDC_resize_screen` that accepted the request leaves it: the flag
cleared, every other member as it was. A request that the driver rejects
leaves `*SP` as it was. -/
def acknowledgeResize (sp : SCREEN) : SCREEN :=
  { sp with resized := false }

/-- Modelled from the spec: the driver's report of a change of size made by
the user, which happens outside `initscr.c`, between two calls of the API
("set when the driver reports an out-of-band geometry change"; man page, lines
101-102: "the curses screen has been resized by the user, and a call to
resize_term() is needed"). Only `SP->resized` changes. -/
def driverReportsResize (st : State) : State :=
  { st with SP := st.SP.map fun sp => { sp with resized := true } }

/-- The function `resize_term(nlines, ncols)`, lines 305-336. `*SP` is read
after the call of `PDC_resize_screen` at line 309, so it is `*SP` as the
driver, having accepted the request, left it (`acknowledgeResize`). -/
def resize_term (env : Env) (nlines ncols : Int) (st : State) : Outcome RetCode :=
  if st.stdscr = none then
    .ret .ERR st
  else
    let answer := env.PDC_resize_screen st.trace nlines ncols
    let st := log st (.PDC_resize_screen nlines ncols)
    if answer = .ERR then
      .ret .ERR st
    else
      match st.SP with
      | none => .fault st
      | some sp =>
        let g := storeGeometry env (acknowledgeResize sp) st
        resizeWindows env g.1 g.2

/-- The function `is_termresized()`, lines 338-343. -/
def is_termresized (st : State) : Outcome Bool :=
  match st.SP with
  | none => .fault st
  | some sp => .ret sp.resized st

/-- The string `_curses_notice`, line 19. -/
def _curses_notice : String := "PDCurses 3.0 - Public Domain 2007"

/-- The function `curses_version()`, lines 345-348. -/
def curses_version : String := _curses_notice

/-- The number of entries of `linesripped[]` that ask for a top strip
(`line >= 0`, the `else` branch of the loop). -/
def topCount (rs : List RIPPEDOFFLINE) : Int :=
  ((rs.filter fun r => decide (¬ r.line < 0)).length : Int)

/-- The `newwin` calls of a trace, in order, as `(nlines, ncols, begy, begx)`. -/
def newwinCalls : List Event → List (Int × Int × Int × Int)
  | [] => []
  | .newwin nlines ncols begy begx :: rest => (nlines, ncols, begy, begx) :: newwinCalls rest
  | _ :: rest => newwinCalls rest

/-- The callbacks of `linesripped[]` that a trace calls, in order. -/
def initCalls : List Event → List Nat
  | [] => []
  | .init callback _ _ :: rest => callback :: initCalls rest
  | _ :: rest => initCalls rest

/-- Whether a session is open: `SP && SP->alive`, the test at line 135. -/
def State.isOpen (st : State) : Bool :=
  match st.SP with
  | some sp => sp.alive
  | none => false

/-- The calls made on the way from `st` to `st'`. -/
def newCalls (st st' : State) : List Event :=
  st'.trace.drop st.trace.length

/-- The state in which a call ended. -/
def Outcome.state {α : Type} : Outcome α → State
  | .ret _ st => st
  | .exit _ st => st
  | .fault st => st

/-- A `SCREEN` as a driver hands it out: zero-filled, with the geometry of the
device in `lines` and `cols`. -/
def freshScreen (rows cols : Int) : SCREEN :=
  { addr := 1, alive := false, autocr := false, cbreak := false, echo := false,
    raw_inp := false, raw_out := false, audible := false, resized := false,
    orig_cursor := 0, visibility := 0, lines := rows, cols := cols, _trap_mbe := 0,
    _map_mbe_to_key := 0, linesrippedoff := 0, linesrippedoffontop := 0, delaytenths := 0,
    _preserve := false, save_key_modifiers := false, return_key_modifiers := false,
    line_color := 0, slklines := 0, slk_winptr := none }

/-- A concrete environment for the examples. The driver opens a device of
`rows` x `cols` cells and reports that size, it accepts every resize request;
the window factory makes and resizes every window that has at least one row and
one column and starts on the screen, each at a fresh address; the status strip
has height `slk` (none when `slk = 0`). -/
def demoEnv (rows cols slk : Int) : Env :=
  { PDC_scr_open := fun _ _ _ => some (freshScreen rows cols, some 1)
    PDC_get_cursor_mode := fun _ => 1
    newwin := fun tr nlines ncols begy begx =>
      if 1 ≤ nlines ∧ 1 ≤ ncols ∧ 0 ≤ begy ∧ 0 ≤ begx then
        some { addr := tr.length + 2, _clear := true }
      else none
    PDC_slk_initialize := fun tr sp =>
      (slk, if slk = 0 then none
            else match sp.slk_winptr with
              | some win => some win
              | none => some { addr := tr.length + 2, _clear := false })
    PDC_resize_screen := fun _ _ _ => .OK
    PDC_get_rows := fun _ => rows
    PDC_get_columns := fun _ => cols
    resize_window := fun tr win nlines ncols =>
      match win with
      | none => none
      | some old =>
        if 1 ≤ nlines ∧ 1 ≤ ncols then some { addr := tr.length + 2, _clear := old._clear }
        else none
    BUTTON_RELEASED := 0 }

/-- The start state with the given strips registered (`ripoffline` called once
per entry before `initscr`). -/
def registered (rs : List RIPPEDOFFLINE) : State :=
  { State.initial with linesripped := rs }

/-- A bottom-anchored registration (`line = -1`) with callback number `cb`. -/
def bottomStrip (cb : Nat) : RIPPEDOFFLINE := { line := -1, init := cb }

/-- A top-anchored registration (`line = 1`) with callback number `cb`. -/
def topStrip (cb : Nat) : RIPPEDOFFLINE := { line := 1, init := cb }

/-- The session opened on a 24 x 80 device with one bottom strip and no status
strip. -/
def demoOpened : State :=
  (Xinitscr (demoEnv 24 80 0) 0 [] (registered [bottomStrip 0])).state

/-- The `SCREEN` of `demoOpened`. -/
def demoOpenedSP : SCREEN :=
  { freshScreen 24 80 with
    autocr := true, cbreak := true, visibility := 1, audible := true, line_color := -1,
    orig_cursor := 1, linesrippedoff := 1, alive := true }

/-- The session `demoOpened` after `resize_term(0, 0)`, the driver now
reporting 30 x 100. -/
def demoResized : State :=
  (resize_term (demoEnv 30 100 0) 0 0 demoOpened).state

/-- The environment `demoEnv 24 80 0` with a driver that rejects every resize
request. -/
def rejectingEnv : Env :=
  { demoEnv 24 80 0 with PDC_resize_screen := fun _ _ _ => .ERR }

/-- The session `demoOpened` after `endwin()`. -/
def demoClosed : State := (endwin demoOpened).state

/-- The session `demoOpened` after `endwin()` twice. -/
def demoClosedTwice : State := (endwin demoClosed).state

/-- The session opened on a 2 x 80 device with one bottom strip and no status
strip. -/
def demoSmall : State :=
  (Xinitscr (demoEnv 2 80 0) 0 [] (registered [bottomStrip 0])).state

/-- The state in which `Xinitscr` leaves the program on a 1 x 80 device. -/
def demoTooSmall : State :=
  (Xinitscr (demoEnv 1 80 0) 0 [] State.initial).state

/-- The height that `PDC_get_rows()` reports to a `resize_term(nlines, ncols)`
called in state `st` (line 312). -/
def reportedRows (env : Env) (nlines ncols : Int) (st : State) : Int :=
  env.PDC_get_rows (st.trace ++ [.PDC_resize_screen nlines ncols])

/-- The width that `PDC_get_columns()` reports to a `resize_term(nlines,
ncols)` called in state `st` (line 314). -/
def reportedCols (env : Env) (nlines ncols : Int) (st : State) : Int :=
  env.PDC_get_columns (st.trace ++ [.PDC_resize_screen nlines ncols, .PDC_get_rows])

/-- The session opened on a 24 x 80 device with a top strip registered first
and a bottom strip second, no status strip. -/
def demoTopBottom : State :=
  (Xinitscr (demoEnv 24 80 0) 0 [] (registered [topStrip 0, bottomStrip 1])).state

/-- The start state with two bottom strips and then a top strip registered. -/
def demoThree : State :=
  registered [bottomStrip 0, bottomStrip 1, topStrip 2]

/-- The session opened from `demoThree` on a 24 x 80 device with a status
strip of height 1. -/
def demoThreeOpened : State :=
  (Xinitscr (demoEnv 24 80 1) 0 [] demoThree).state

/-- The windows that a trace passes to `resize_window`, in order. -/
def resizedWindows : List Event → List (Option WINDOW)
  | [] => []
  | .resize_window win _ _ :: rest => win :: resizedWindows rest
  | _ :: rest => resizedWindows rest

/-- The state after `delscreen(SP)` on the session `demoOpened`. -/
def demoDeleted : State :=
  (delscreen (some demoOpenedSP.addr) demoOpened).state

/-- The session `demoOpened` after the driver has reported a resize by the
user. -/
def demoFlagged : State := driverReportsResize demoOpened

/-- The session `demoFlagged` after `resize_term(0, 0)`, the driver now
reporting 30 x 100. -/
def demoAcknowledged : State :=
  (resize_term (demoEnv 30 100 0) 0 0 demoFlagged).state

/-- The environment `demoEnv 30 100 0` with a window factory that cannot
resize any window (`resize_window` returns `NULL`, as when memory runs out). -/
def failingEnv : Env :=
  { demoEnv 30 100 0 with resize_window := fun _ _ _ _ => none }

/-- The session opened on a 4 x 80 device with two top strips registered
before a bottom strip, no status strip. -/
def demoTopTopBottom : State :=
  (Xinitscr (demoEnv 4 80 0) 0 [] (registered [topStrip 0, topStrip 1, bottomStrip 2])).state

/-- The `SCREEN` and the state with which `Xinitscr`, called in the closed
state `st`, reaches line 198 (the creation of `stdscr`) when the driver
allocated `sp0` and `atrtab` at line 137: the statements of lines 137-196 on
the path without `exit`, `curscr` being whatever `newwin` returned. -/
def reachStdscr (env : Env) (argc : Int) (argv : List String) (st : State) (sp0 : SCREEN)
    (atrtab : Option Nat) : SCREEN × State :=
  let st := log st (.PDC_scr_open argc argv)
  let st := { st with pdc_atrtab := atrtab }
  let sp := initSP sp0
  let mode := env.PDC_get_cursor_mode st.trace
  let st := log st .PDC_get_cursor_mode
  let sp := { sp with orig_cursor := mode }
  let st := { st with SP := some sp }
  let st := { st with LINES := sp.lines }
  let st := { st with COLS := sp.cols }
  let cw := env.newwin st.trace st.LINES st.COLS 0 0
  let st := log st (.newwin st.LINES st.COLS 0 0)
  let st := { st with curscr := cw }
  let slk := env.PDC_slk_initialize st.trace sp
  let st := log st Event.PDC_slk_initialize
  let sp := { sp with slklines := slk.1, slk_winptr := slk.2 }
  let st := { st with SP := some sp }
  let st := { st with LINES := st.LINES - sp.slklines }
  ripLoop env st.linesripped sp st

/-- What `resize_window(curscr, SP->lines, SP->cols)` returns to a
`resize_term(nlines, ncols)` called in state `st` (line 316). -/
def resizedCurscr (env : Env) (nlines ncols : Int) (st : State) : Option WINDOW :=
  env.resize_window
    (st.trace ++ [.PDC_resize_screen nlines ncols, .PDC_get_rows, .PDC_get_columns])
    st.curscr (reportedRows env nlines ncols st) (reportedCols env nlines ncols st)

/-- What `resize_window(stdscr, LINES, COLS)` returns to a
`resize_term(nlines, ncols)` called in state `st` with `*SP = sp` (line 317,
reached when `curscr` could be resized). -/
def resizedStdscr (env : Env) (nlines ncols : Int) (st : State) (sp : SCREEN) : Option WINDOW :=
  env.resize_window
    (st.trace ++ [.PDC_resize_screen nlines ncols, .PDC_get_rows, .PDC_get_columns,
      .resize_window st.curscr (reportedRows env nlines ncols st)
        (reportedCols env nlines ncols st)])
    st.stdscr (reportedRows env nlines ncols st - sp.linesrippedoff - sp.slklines)
    (reportedCols env nlines ncols st)

/-- What `resize_window(SP->slk_winptr, SP->slklines, COLS)` returns to a
`resize_term(nlines, ncols)` called in state `st` with `*SP = sp` (line 322,
reached when `curscr` and `stdscr` could be resized and `SP->slk_winptr` is
set). -/
def resizedSlk (env : Env) (nlines ncols : Int) (st : State) (sp : SCREEN) : Option WINDOW :=
  env.resize_window
    (st.trace ++ [.PDC_resize_screen nlines ncols, .PDC_get_rows, .PDC_get_columns,
      .resize_window st.curscr (reportedRows env nlines ncols st)
        (reportedCols env nlines ncols st),
      .resize_window st.stdscr
        (reportedRows env nlines ncols st - sp.linesrippedoff - sp.slklines)
        (reportedCols env nlines ncols st)])
    sp.slk_winptr sp.slklines (reportedCols env nlines ncols st)

/-! ## Theorems -/

theorem newwinCalls_append (a b : List Event) :
    newwinCalls (a ++ b) = newwinCalls a ++ newwinCalls b := by
  induction a with
  | nil => rfl
  | cons e rest ih => cases e <;> simp [newwinCalls, ih]

theorem initCalls_append (a b : List Event) :
    initCalls (a ++ b) = initCalls a ++ initCalls b := by
  induction a with
  | nil => rfl
  | cons e rest ih => cases e <;> simp [initCalls, ih]

/-- The row of the strip that one pass of the loop creates. -/
theorem ripStep_eq (env : Env) (r : RIPPEDOFFLINE) (sp : SCREEN) (st : State) :
    (ripStep env r sp st).1 =
        { sp with linesrippedoff := sp.linesrippedoff + 1,
                  linesrippedoffontop := sp.linesrippedoffontop + (if r.line < 0 then 0 else 1) } ∧
      (ripStep env r sp st).2 =
        { st with
          SP := some (ripStep env r sp st).1,
          LINES := st.LINES - 1,
          trace := st.trace ++
            [.newwin 1 st.COLS (if r.line < 0 then st.LINES - 1 else sp.linesrippedoffontop) 0,
             .init r.init (env.newwin st.trace 1 st.COLS
                (if r.line < 0 then st.LINES - 1 else sp.linesrippedoffontop) 0) st.COLS] } := by
  by_cases hr : r.line < 0 <;> simp [ripStep, hr, log]

/-- The loop over the registered strips changes, besides the trace, only
`SP->linesrippedoff`, `SP->linesrippedoffontop`, `SP` itself and `LINES`. -/
theorem ripLoop_fields (env : Env) (rs : List RIPPEDOFFLINE) (sp : SCREEN) (st : State)
    (hsp : st.SP = some sp) :
    (ripLoop env rs sp st).1 =
        { sp with linesrippedoff := sp.linesrippedoff + rs.length,
                  linesrippedoffontop := sp.linesrippedoffontop + topCount rs } ∧
      (ripLoop env rs sp st).2 =
        { st with SP := some (ripLoop env rs sp st).1,
                  LINES := st.LINES - rs.length,
                  trace := (ripLoop env rs sp st).2.trace } := by
  induction rs generalizing sp st with
  | nil => cases st; simp_all [ripLoop, topCount]
  | cons r rest ih =>
    obtain ⟨e1, e2⟩ := ripStep_eq env r sp st
    simp only [ripLoop]
    generalize ripStep env r sp st = p at e1 e2 ⊢
    obtain ⟨s1, t1⟩ := p
    simp only at e1 e2
    have h := ih s1 t1 (by rw [e2])
    refine ⟨?_, ?_⟩
    · rw [h.1, e1]
      by_cases hr : r.line < 0
      · simp [topCount, hr]; omega
      · have hr' : 0 ≤ r.line := not_lt.mp hr
        simp [topCount, hr, hr']; omega
    · rw [h.2]
      subst e2
      simp
      omega

/-- The loop only appends to the trace, and calls the callbacks in
registration order. -/
theorem ripLoop_trace (env : Env) (rs : List RIPPEDOFFLINE) (sp : SCREEN) (st : State) :
    ∃ new, (ripLoop env rs sp st).2.trace = st.trace ++ new ∧
      initCalls new = rs.map RIPPEDOFFLINE.init ∧
      (newwinCalls new).length = rs.length := by
  induction rs generalizing sp st with
  | nil => exact ⟨[], by simp [ripLoop], rfl, rfl⟩
  | cons r rest ih =>
    obtain ⟨-, e2⟩ := ripStep_eq env r sp st
    obtain ⟨new, h1, h2, h3⟩ := ih (ripStep env r sp st).1 (ripStep env r sp st).2
    refine ⟨.newwin 1 st.COLS (if r.line < 0 then st.LINES - 1 else sp.linesrippedoffontop) 0 ::
      .init r.init (env.newwin st.trace 1 st.COLS
        (if r.line < 0 then st.LINES - 1 else sp.linesrippedoffontop) 0) st.COLS :: new, ?_, ?_, ?_⟩
    · simp only [ripLoop]
      rw [h1, e2]
      simp only [List.append_assoc, List.cons_append, List.nil_append]
    · simp [initCalls, h2]
    · simp [newwinCalls, h3]

/-- When every registered strip is bottom-anchored, the loop creates the
`k`-th one as `newwin(1, COLS, LINES - 1 - k, 0)`, `LINES` being the value at
loop entry. -/
theorem ripLoop_trace_bottom (env : Env) (rs : List RIPPEDOFFLINE) (sp : SCREEN) (st : State)
    (hb : ∀ r ∈ rs, r.line < 0) (new : List Event)
    (hnew : (ripLoop env rs sp st).2.trace = st.trace ++ new) :
    newwinCalls new =
      (List.range rs.length).map
        fun (k : Nat) => ((1 : Int), st.COLS, st.LINES - 1 - (k : Int), (0 : Int)) := by
  induction rs generalizing sp st new with
  | nil =>
    have : new = [] := by simpa [ripLoop] using hnew
    subst this; rfl
  | cons r rest ih =>
    have hr : r.line < 0 := hb r (List.mem_cons_self _ _)
    obtain ⟨-, e2⟩ := ripStep_eq env r sp st
    obtain ⟨new', h1, -, -⟩ := ripLoop_trace env rest (ripStep env r sp st).1 (ripStep env r sp st).2
    have h2 := ih (ripStep env r sp st).1 (ripStep env r sp st).2
      (fun x hx => hb x (List.mem_cons_of_mem _ hx)) new' h1
    have hL : (ripStep env r sp st).2.LINES = st.LINES - 1 := by rw [e2]
    have hC : (ripStep env r sp st).2.COLS = st.COLS := by rw [e2]
    have hT : (ripStep env r sp st).2.trace = st.trace ++
        [.newwin 1 st.COLS (st.LINES - 1) 0,
         .init r.init (env.newwin st.trace 1 st.COLS (st.LINES - 1) 0) st.COLS] := by
      rw [e2]; simp [hr]
    have hn : new = .newwin 1 st.COLS (st.LINES - 1) 0 ::
        .init r.init (env.newwin st.trace 1 st.COLS (st.LINES - 1) 0) st.COLS :: new' := by
      simp only [ripLoop] at hnew
      rw [h1, hT] at hnew
      simpa using hnew.symm
    subst hn
    rw [hL, hC] at h2
    simp only [newwinCalls, h2, List.length_cons, List.range_succ_eq_map, List.map_cons,
      List.map_map]
    refine congrArg₂ _ (by simp) (List.map_congr_left fun k _ => ?_)
    simp only [Function.comp, Nat.cast_succ]
    rw [sub_sub (st.LINES - 1) 1 (k : Int), add_comm (1 : Int) (k : Int)]

/-- The tail of `Xinitscr` always returns `stdscr`: it marks the session
alive, clears `_clear` of `curscr` (and of `stdscr` under `_preserve`) and
resets the mouse status. -/
theorem finishOpen_eq (env : Env) (sp : SCREEN) (sw : WINDOW) (st : State)
    (hstd : st.stdscr = some sw) :
    finishOpen env sp sw st =
      .ret (some (if sp._preserve then { sw with _clear := false } else sw))
        { st with
          SP := some { sp with alive := true },
          curscr := st.curscr.map fun c => { c with _clear := false },
          stdscr := some (if sp._preserve then { sw with _clear := false } else sw),
          Mouse_status :=
            { st.Mouse_status with
              x := -1, y := -1, button1 := env.BUTTON_RELEASED,
              button2 := env.BUTTON_RELEASED, button3 := env.BUTTON_RELEASED, changes := 0 },
          trace := st.trace ++ .wclrtobot (some sw) ::
            ((if sp._preserve then [.untouchwin st.curscr, .untouchwin (some sw)] else []) ++
              [.PDC_init_atrtab, .def_shell_mode]) } := by
  cases hp : sp._preserve <;> simp [finishOpen, log, hp, hstd]

/-- What lines 198-232 leave behind when `stdscr` can be created. -/
theorem stdscrOpen_ret (env : Env) (sp : SCREEN) (st : State) (w : WINDOW) (st' : State)
    (h : stdscrOpen env sp st = .ret (some w) st') :
    ∃ (sw : WINDOW) (tail : List Event),
      env.newwin st.trace st.LINES st.COLS sp.linesrippedoffontop 0 = some sw ∧
      w = (if sp._preserve then { sw with _clear := false } else sw) ∧
      st' =
        { st with
          SP := some { sp with alive := true },
          curscr := st.curscr.map fun c => { c with _clear := false },
          stdscr := some w,
          Mouse_status :=
            { st.Mouse_status with
              x := -1, y := -1, button1 := env.BUTTON_RELEASED,
              button2 := env.BUTTON_RELEASED, button3 := env.BUTTON_RELEASED, changes := 0 },
          linesripped := [],
          trace := st.trace ++ .newwin st.LINES st.COLS sp.linesrippedoffontop 0 :: tail } ∧
      newwinCalls tail = [] ∧ initCalls tail = [] := by
  unfold stdscrOpen at h
  simp only at h
  cases hsw : env.newwin st.trace st.LINES st.COLS sp.linesrippedoffontop 0 with
  | none => simp [hsw] at h
  | some sw =>
    simp only [hsw] at h
    rw [finishOpen_eq env sp sw _ rfl] at h
    simp only [Outcome.ret.injEq, Option.some.injEq] at h
    obtain ⟨hw, hst⟩ := h
    refine ⟨sw, .wclrtobot (some sw) ::
      ((if sp._preserve then [.untouchwin st.curscr, .untouchwin (some sw)] else []) ++
        [.PDC_init_atrtab, .def_shell_mode]), rfl, hw.symm, ?_, ?_, ?_⟩
    · rw [← hst, ← hw]; simp [log]
    · cases sp._preserve <;> simp [newwinCalls]
    · cases sp._preserve <;> simp [initCalls]

/-- What lines 179-232 leave behind when `stdscr` can be created. `loop` are
the calls made by the loop over the registered strips, `tail` the calls after
the creation of `stdscr`. -/
theorem stripsOpen_ret (env : Env) (sp : SCREEN) (st : State) (w : WINDOW) (st' : State)
    (h : stripsOpen env sp st = .ret (some w) st') :
    ∃ (sw : WINDOW) (slk : Int × Option WINDOW) (loop tail : List Event),
      slk = env.PDC_slk_initialize st.trace sp ∧
      env.newwin (st.trace ++ Event.PDC_slk_initialize :: loop)
        (st.LINES - slk.1 - st.linesripped.length) st.COLS
        (sp.linesrippedoffontop + topCount st.linesripped) 0 = some sw ∧
      w = (if sp._preserve then { sw with _clear := false } else sw) ∧
      st' =
        { st with
          SP := some
            { sp with
              slklines := slk.1, slk_winptr := slk.2,
              linesrippedoff := sp.linesrippedoff + st.linesripped.length,
              linesrippedoffontop := sp.linesrippedoffontop + topCount st.linesripped,
              alive := true },
          curscr := st.curscr.map fun c => { c with _clear := false },
          stdscr := some w,
          LINES := st.LINES - slk.1 - st.linesripped.length,
          Mouse_status :=
            { st.Mouse_status with
              x := -1, y := -1, button1 := env.BUTTON_RELEASED,
              button2 := env.BUTTON_RELEASED, button3 := env.BUTTON_RELEASED, changes := 0 },
          linesripped := [],
          trace := st.trace ++ Event.PDC_slk_initialize :: loop ++
            .newwin (st.LINES - slk.1 - st.linesripped.length) st.COLS
              (sp.linesrippedoffontop + topCount st.linesripped) 0 :: tail } ∧
      initCalls loop = st.linesripped.map RIPPEDOFFLINE.init ∧
      (newwinCalls loop).length = st.linesripped.length ∧
      ((∀ r ∈ st.linesripped, r.line < 0) →
        newwinCalls loop = (List.range st.linesripped.length).map
          fun (k : Nat) => ((1 : Int), st.COLS, st.LINES - slk.1 - 1 - (k : Int), (0 : Int))) ∧
      newwinCalls tail = [] ∧ initCalls tail = [] := by
  obtain ⟨slk, hslk⟩ : ∃ x, x = env.PDC_slk_initialize st.trace sp := ⟨_, rfl⟩
  obtain ⟨sp1, hsp1⟩ : ∃ x : SCREEN, x = { sp with slklines := slk.1, slk_winptr := slk.2 } :=
    ⟨_, rfl⟩
  obtain ⟨st1, hst1⟩ : ∃ x : State, x =
      { st with SP := some sp1, LINES := st.LINES - slk.1,
                trace := st.trace ++ [Event.PDC_slk_initialize] } := ⟨_, rfl⟩
  have e : stripsOpen env sp st =
      stdscrOpen env (ripLoop env st.linesripped sp1 st1).1
        (ripLoop env st.linesripped sp1 st1).2 := by
    subst hst1 hsp1 hslk; rfl
  rw [e] at h
  have hSP : st1.SP = some sp1 := by rw [hst1]
  obtain ⟨f1, f2⟩ := ripLoop_fields env st.linesripped sp1 st1 hSP
  obtain ⟨loop, t1, t2, t3⟩ := ripLoop_trace env st.linesripped sp1 st1
  have t4 := fun hb => ripLoop_trace_bottom env st.linesripped sp1 st1 hb loop t1
  generalize ripLoop env st.linesripped sp1 st1 = p at h f1 f2 t1 t4
  obtain ⟨sp2, st2⟩ := p
  simp only at h f1 f2 t1 t4
  obtain ⟨sw, tail, g1, g2, g3, g4, g5⟩ := stdscrOpen_ret env sp2 st2 w st' h
  refine ⟨sw, slk, loop, tail, hslk, ?_, ?_, ?_, t2, t3, ?_, g4, g5⟩
  · rw [← g1, t1, f2, f1, hst1, hsp1]
    simp
  · rw [g2, f1, hsp1]
  · rw [g3, t1, f2, f1, hst1, hsp1]
    simp
  · intro hb
    rw [t4 hb, hst1]

/-- A successful pass through lines 163-232 has a screen of at least 2 x 2 and
a `curscr`, and continues with the strips. -/
theorem layoutOpen_ret (env : Env) (sp : SCREEN) (st : State) (w : WINDOW) (st' : State)
    (h : layoutOpen env sp st = .ret (some w) st') :
    2 ≤ sp.lines ∧ 2 ≤ sp.cols ∧
    ∃ cw : WINDOW,
      env.newwin st.trace sp.lines sp.cols 0 0 = some cw ∧
      stripsOpen env sp
        { st with LINES := sp.lines, COLS := sp.cols, curscr := some cw,
                  trace := st.trace ++ [.newwin sp.lines sp.cols 0 0] } = .ret (some w) st' := by
  unfold layoutOpen at h
  simp only at h
  by_cases hsmall : sp.lines < 2 ∨ sp.cols < 2
  · simp [hsmall] at h
  · rw [if_neg hsmall] at h
    push_neg at hsmall
    refine ⟨hsmall.1, hsmall.2, ?_⟩
    cases hcw : env.newwin st.trace sp.lines sp.cols 0 0 with
    | none => simp [hcw] at h
    | some cw =>
      simp only [hcw, log] at h
      exact ⟨cw, rfl, by simpa using h⟩

/-- A successful `Xinitscr` started from a closed state, the driver opened the
screen, and the rest of the function ran on the `SCREEN` it allocated. -/
theorem Xinitscr_ret (env : Env) (argc : Int) (argv : List String) (st : State)
    (w : WINDOW) (st' : State) (h : Xinitscr env argc argv st = .ret (some w) st') :
    st.isOpen = false ∧
    ∃ (sp0 : SCREEN) (atrtab : Option Nat),
      env.PDC_scr_open st.trace argc argv = some (sp0, atrtab) ∧
      layoutOpen env
        { initSP sp0 with
          orig_cursor := env.PDC_get_cursor_mode (st.trace ++ [.PDC_scr_open argc argv]) }
        { st with
          SP := some { initSP sp0 with
            orig_cursor := env.PDC_get_cursor_mode (st.trace ++ [.PDC_scr_open argc argv]) },
          pdc_atrtab := atrtab,
          trace := st.trace ++ [.PDC_scr_open argc argv, .PDC_get_cursor_mode] } =
        .ret (some w) st' := by
  unfold Xinitscr at h
  by_cases ho : st.isOpen = true
  · have : (match st.SP with
        | some sp => sp.alive
        | none => false) = true := ho
    rw [if_pos this] at h
    simp at h
  · have : ¬ (match st.SP with
        | some sp => sp.alive
        | none => false) = true := ho
    rw [if_neg this] at h
    refine ⟨by simpa using ho, ?_⟩
    simp only at h
    cases hop : env.PDC_scr_open st.trace argc argv with
    | none => simp [hop] at h
    | some r =>
      obtain ⟨sp0, atrtab⟩ := r
      simp only [hop, log] at h
      exact ⟨sp0, atrtab, rfl, by simpa using h⟩

/-- Everything a successful `Xinitscr` leaves behind, in terms of the state
`st` it started from and the answers of the environment: `sp0` is the `SCREEN`
the driver allocated, `cw` and `sw` the windows `newwin` returned for `curscr`
and `stdscr`, `slk` the answer of `PDC_slk_initialize`, `loop` the calls of the
loop over the registered strips and `tail` the calls after the creation of
`stdscr`. -/
theorem Xinitscr_success (env : Env) (argc : Int) (argv : List String) (st : State)
    (w : WINDOW) (st' : State) (h : Xinitscr env argc argv st = .ret (some w) st') :
    st.isOpen = false ∧
    ∃ (sp0 : SCREEN) (atrtab : Option Nat) (cw sw : WINDOW) (slk : Int × Option WINDOW)
      (loop tail : List Event),
      env.PDC_scr_open st.trace argc argv = some (sp0, atrtab) ∧
      2 ≤ sp0.lines ∧ 2 ≤ sp0.cols ∧
      env.newwin (st.trace ++ [.PDC_scr_open argc argv, .PDC_get_cursor_mode])
        sp0.lines sp0.cols 0 0 = some cw ∧
      slk = env.PDC_slk_initialize
        (st.trace ++ [.PDC_scr_open argc argv, .PDC_get_cursor_mode,
          .newwin sp0.lines sp0.cols 0 0])
        { initSP sp0 with
          orig_cursor := env.PDC_get_cursor_mode (st.trace ++ [.PDC_scr_open argc argv]) } ∧
      env.newwin
        (st.trace ++ [.PDC_scr_open argc argv, .PDC_get_cursor_mode,
          .newwin sp0.lines sp0.cols 0 0, Event.PDC_slk_initialize] ++ loop)
        (sp0.lines - slk.1 - st.linesripped.length) sp0.cols (topCount st.linesripped) 0 =
          some sw ∧
      w = (if sp0._preserve then { sw with _clear := false } else sw) ∧
      st' =
        { st with
          SP := some
            { initSP sp0 with
              orig_cursor := env.PDC_get_cursor_mode (st.trace ++ [.PDC_scr_open argc argv]),
              slklines := slk.1, slk_winptr := slk.2,
              linesrippedoff := st.linesripped.length,
              linesrippedoffontop := topCount st.linesripped,
              alive := true },
          curscr := some { cw with _clear := false },
          stdscr := some w,
          LINES := sp0.lines - slk.1 - st.linesripped.length,
          COLS := sp0.cols,
          Mouse_status :=
            { st.Mouse_status with
              x := -1, y := -1, button1 := env.BUTTON_RELEASED,
              button2 := env.BUTTON_RELEASED, button3 := env.BUTTON_RELEASED, changes := 0 },
          linesripped := [],
          pdc_atrtab := atrtab,
          trace := st.trace ++ [.PDC_scr_open argc argv, .PDC_get_cursor_mode,
              .newwin sp0.lines sp0.cols 0 0, Event.PDC_slk_initialize] ++ loop ++
            .newwin (sp0.lines - slk.1 - st.linesripped.length) sp0.cols
              (topCount st.linesripped) 0 :: tail } ∧
      initCalls loop = st.linesripped.map RIPPEDOFFLINE.init ∧
      (newwinCalls loop).length = st.linesripped.length ∧
      ((∀ r ∈ st.linesripped, r.line < 0) →
        newwinCalls loop = (List.range st.linesripped.length).map
          fun (k : Nat) => ((1 : Int), sp0.cols, sp0.lines - slk.1 - 1 - (k : Int), (0 : Int))) ∧
      newwinCalls tail = [] ∧ initCalls tail = [] := by
  obtain ⟨hclosed, sp0, atrtab, hopen, h1⟩ := Xinitscr_ret env argc argv st w st' h
  obtain ⟨hH, hW, cw, hcw, h2⟩ := layoutOpen_ret env _ _ w st' h1
  obtain ⟨sw, slk, loop, tail, hslk, hsw, hw, hst, l1, l2, l3, l4, l5⟩ :=
    stripsOpen_ret env _ _ w st' h2
  refine ⟨hclosed, sp0, atrtab, cw, sw, slk, loop, tail, hopen, hH, hW, ?_, ?_, ?_, ?_, ?_,
    l1, l2, ?_, l4, l5⟩
  · simpa [initSP] using hcw
  · simpa [initSP] using hslk
  · simpa [initSP] using hsw
  · simpa [initSP] using hw
  · rw [hst]; simp [initSP]
  · simpa [initSP] using l3

theorem newCalls_append (st st' : State) (new : List Event)
    (h : st'.trace = st.trace ++ new) : newCalls st st' = new := by
  simp [newCalls, h]

/-- C2. Opening while a session is alive is a no-op failure: when `SP` exists
and `SP->alive` is set, `Xinitscr`, `initscr` and `newterm` return `NULL` and
the state they return in is the state they were called in: every global is
unchanged and, the trace being part of the state, neither the platform driver
nor the window factory has been called. -/
theorem C2_open_while_alive_is_noop (env : Env) (argc : Int) (argv : List String)
    (type : String) (outfd infd : Nat) (st : State) (sp : SCREEN)
    (hsp : st.SP = some sp) (halive : sp.alive = true) :
    Xinitscr env argc argv st = .ret none st ∧
      initscr env st = .ret none st ∧
      newterm env type outfd infd st = .ret none st := by
  have h : ∀ a b, Xinitscr env a b st = .ret none st := by
    intro a b
    simp [Xinitscr, hsp, halive]
  refine ⟨h _ _, h _ _, ?_⟩
  simp [newterm, h]

theorem C2_open_while_alive_is_noop_witness :
    Xinitscr (demoEnv 30 100 0) 0 [] demoOpened = .ret none demoOpened ∧
      initscr (demoEnv 30 100 0) demoOpened = .ret none demoOpened ∧
      newterm (demoEnv 30 100 0) "" 0 0 demoOpened = .ret none demoOpened :=
  C2_open_while_alive_is_noop (demoEnv 30 100 0) 0 [] "" 0 0 demoOpened demoOpenedSP rfl rfl

/-- The status-strip part of `resize_term` (lines 320-335) always returns. It
leaves `LINES`, `COLS`, `curscr`, `stdscr` and the geometry and ripped-line
counts of `SP` as they are; it returns `ERR` only when `resize_window` returned
`NULL` for the strip, and `OK` only after `touchwin(stdscr)`. -/
theorem resizeSlk_spec (env : Env) (sp : SCREEN) (st : State) :
    ∃ (rc : RetCode) (sp' : SCREEN) (new : List Event),
      resizeSlk env sp st =
        .ret rc { st with SP := (if sp.slk_winptr = none then st.SP else some sp'),
                          trace := st.trace ++ new } ∧
      sp'.addr = sp.addr ∧ sp'.alive = sp.alive ∧ sp'.resized = sp.resized ∧
      sp'.lines = sp.lines ∧ sp'.cols = sp.cols ∧
      sp'.linesrippedoff = sp.linesrippedoff ∧
      sp'.linesrippedoffontop = sp.linesrippedoffontop ∧
      ((∀ tr s, s.slklines = sp.slklines → (env.PDC_slk_initialize tr s).1 = sp.slklines) →
        sp'.slklines = sp.slklines) ∧
      (rc = .ERR → sp.slk_winptr ≠ none ∧ sp'.slk_winptr = none) ∧
      (rc = .OK → Event.touchwin st.stdscr ∈ new) ∧
      ((∀ tr win r c, env.resize_window tr win r c ≠ none) → rc = .OK) := by
  unfold resizeSlk
  cases hslk : sp.slk_winptr with
  | none =>
    refine ⟨.OK, sp, [.touchwin st.stdscr, .wnoutrefresh st.stdscr], ?_, rfl, rfl, rfl, rfl, rfl,
      rfl, rfl, fun _ => rfl, by simp, by simp, fun _ => rfl⟩
    simp [log]
  | some slkw =>
    simp only
    cases hw : env.resize_window st.trace (some slkw) sp.slklines st.COLS with
    | none =>
      refine ⟨.ERR, { sp with slk_winptr := none },
        [.resize_window (some slkw) sp.slklines st.COLS], ?_, rfl, rfl, rfl, rfl, rfl,
        rfl, rfl, fun _ => rfl, by simp, by simp, fun h => absurd hw (h _ _ _ _)⟩
      simp [log]
    | some w =>
      refine ⟨.OK,
        { sp with
          slklines := (env.PDC_slk_initialize
            (st.trace ++ [.resize_window (some slkw) sp.slklines st.COLS, .wmove (some w) 0 0,
              .wclrtobot (some w)]) { sp with slk_winptr := some w }).1,
          slk_winptr := (env.PDC_slk_initialize
            (st.trace ++ [.resize_window (some slkw) sp.slklines st.COLS, .wmove (some w) 0 0,
              .wclrtobot (some w)]) { sp with slk_winptr := some w }).2 },
        [.resize_window (some slkw) sp.slklines st.COLS, .wmove (some w) 0 0,
          .wclrtobot (some w), Event.PDC_slk_initialize, .slk_noutrefresh,
          .touchwin st.stdscr, .wnoutrefresh st.stdscr], ?_, rfl, rfl, rfl, rfl, rfl,
        rfl, rfl, fun h => h _ _ rfl, by simp, by simp, fun _ => rfl⟩
      simp [log]

/-- What `resizeSlk` leaves behind when it returns `rc` in state `st'`. -/
theorem resizeSlk_ret (env : Env) (sp : SCREEN) (st : State) (rc : RetCode) (st' : State)
    (hSP : st.SP = some sp) (h : resizeSlk env sp st = .ret rc st') :
    ∃ (sp' : SCREEN) (new : List Event),
      st' = { st with SP := some sp', trace := st.trace ++ new } ∧
      sp'.addr = sp.addr ∧ sp'.alive = sp.alive ∧ sp'.resized = sp.resized ∧
      sp'.lines = sp.lines ∧ sp'.cols = sp.cols ∧
      sp'.linesrippedoff = sp.linesrippedoff ∧
      sp'.linesrippedoffontop = sp.linesrippedoffontop ∧
      ((∀ tr s, s.slklines = sp.slklines → (env.PDC_slk_initialize tr s).1 = sp.slklines) →
        sp'.slklines = sp.slklines) ∧
      (rc = .ERR → sp.slk_winptr ≠ none ∧ sp'.slk_winptr = none) ∧
      (rc = .OK → Event.touchwin st.stdscr ∈ new) ∧
      ((∀ tr win r c, env.resize_window tr win r c ≠ none) → rc = .OK) := by
  obtain ⟨rc0, sp', new, e, a1, a2, a3, a4, a5, a6, a7, a8, a9, a10, a11⟩ :=
    resizeSlk_spec env sp st
  rw [e] at h
  simp only [Outcome.ret.injEq] at h
  obtain ⟨rfl, rfl⟩ := h
  by_cases hn : sp.slk_winptr = none
  · refine ⟨sp, new, ?_, rfl, rfl, rfl, rfl, rfl, rfl, rfl, fun _ => rfl, ?_, a10, a11⟩
    · simp [hn, hSP]
    · intro h; exact absurd hn (a9 h).1
  · exact ⟨sp', new, by simp [hn], a1, a2, a3, a4, a5, a6, a7, a8, a9, a10, a11⟩

/-- Lines 312-314 store the reported geometry and touch nothing else. -/
theorem storeGeometry_eq (env : Env) (sp : SCREEN) (st : State) :
    (storeGeometry env sp st).1 =
        { sp with lines := env.PDC_get_rows st.trace,
                  cols := env.PDC_get_columns (st.trace ++ [.PDC_get_rows]) } ∧
      (storeGeometry env sp st).2 =
        { st with
          SP := some (storeGeometry env sp st).1,
          LINES := env.PDC_get_rows st.trace - sp.linesrippedoff - sp.slklines,
          COLS := env.PDC_get_columns (st.trace ++ [.PDC_get_rows]),
          trace := st.trace ++ [.PDC_get_rows, .PDC_get_columns] } := by
  simp [storeGeometry, log]

/-- Lines 316-335 always return. On every path `LINES`, `COLS` and the
geometry and ripped-line counts of `SP` stay as lines 312-314 stored them;
`curscr` is what `resize_window` returned for it, and so is `stdscr` once
`curscr` could be resized; `ERR` means that one of the three windows is now
`NULL`; `OK` means that both windows were resized and `stdscr` touched. -/
theorem resizeWindows_spec (env : Env) (sp : SCREEN) (st : State) (hSP : st.SP = some sp) :
    ∃ (rc : RetCode) (st' : State) (sp' : SCREEN) (new : List Event),
      resizeWindows env sp st = .ret rc st' ∧
      st' = { st with SP := some sp', curscr := st'.curscr, stdscr := st'.stdscr,
                      trace := st.trace ++ new } ∧
      sp'.addr = sp.addr ∧ sp'.alive = sp.alive ∧ sp'.resized = sp.resized ∧
      sp'.lines = sp.lines ∧ sp'.cols = sp.cols ∧
      sp'.linesrippedoff = sp.linesrippedoff ∧
      sp'.linesrippedoffontop = sp.linesrippedoffontop ∧
      ((∀ tr s, s.slklines = sp.slklines → (env.PDC_slk_initialize tr s).1 = sp.slklines) →
        sp'.slklines = sp.slklines) ∧
      (∃ tr, st'.curscr = env.resize_window tr st.curscr sp.lines sp.cols) ∧
      (rc = .ERR → st'.curscr = none ∨ st'.stdscr = none ∨
        (sp.slk_winptr ≠ none ∧ sp'.slk_winptr = none)) ∧
      (rc = .OK → st'.curscr ≠ none ∧ st'.stdscr ≠ none ∧
        (∃ tr, st'.stdscr = env.resize_window tr st.stdscr st.LINES st.COLS) ∧
        Event.resize_window st.curscr sp.lines sp.cols ∈ new ∧
        Event.resize_window st.stdscr st.LINES st.COLS ∈ new ∧
        Event.touchwin st'.stdscr ∈ new) ∧
      ((∀ tr win r c, env.resize_window tr win r c ≠ none) → rc = .OK) := by
  by_cases h1 : env.resize_window st.trace st.curscr sp.lines sp.cols = none
  · have key : resizeWindows env sp st = .ret .ERR
        { st with curscr := none,
                  trace := st.trace ++ [.resize_window st.curscr sp.lines sp.cols] } := by
      simp [resizeWindows, log, h1]
    refine ⟨.ERR, _, sp, [.resize_window st.curscr sp.lines sp.cols], key, ?_,
      rfl, rfl, rfl, rfl, rfl, rfl, rfl, fun _ => rfl, ⟨st.trace, ?_⟩, fun _ => Or.inl rfl,
      by simp, fun h => absurd h1 (h _ _ _ _)⟩
    · simp [hSP]
    · simp [h1]
  · by_cases h2 : env.resize_window (st.trace ++ [.resize_window st.curscr sp.lines sp.cols])
        st.stdscr st.LINES st.COLS = none
    · have key : resizeWindows env sp st = .ret .ERR
          { st with curscr := env.resize_window st.trace st.curscr sp.lines sp.cols,
                    stdscr := none,
                    trace := st.trace ++ [.resize_window st.curscr sp.lines sp.cols,
                      .resize_window st.stdscr st.LINES st.COLS] } := by
        simp [resizeWindows, log, h1, h2]
      refine ⟨.ERR, _, sp, [.resize_window st.curscr sp.lines sp.cols,
          .resize_window st.stdscr st.LINES st.COLS], key, ?_,
        rfl, rfl, rfl, rfl, rfl, rfl, rfl, fun _ => rfl, ⟨st.trace, rfl⟩,
        fun _ => Or.inr (Or.inl rfl), by simp, fun h => absurd h2 (h _ _ _ _)⟩
      simp [hSP]
    · obtain ⟨st2, hst2⟩ : ∃ x : State, x =
          { st with curscr := env.resize_window st.trace st.curscr sp.lines sp.cols,
                    stdscr := env.resize_window
                      (st.trace ++ [.resize_window st.curscr sp.lines sp.cols])
                      st.stdscr st.LINES st.COLS,
                    trace := st.trace ++ [.resize_window st.curscr sp.lines sp.cols,
                      .resize_window st.stdscr st.LINES st.COLS] } := ⟨_, rfl⟩
      have key : resizeWindows env sp st = resizeSlk env sp st2 := by
        rw [hst2]
        simp [resizeWindows, log, h1, h2]
      have hSP2 : st2.SP = some sp := by rw [hst2]; exact hSP
      obtain ⟨rc, st', e⟩ : ∃ rc st', resizeSlk env sp st2 = .ret rc st' := by
        obtain ⟨rc, sp', new, e, -⟩ := resizeSlk_spec env sp st2
        exact ⟨rc, _, e⟩
      obtain ⟨sp', new, hst, a1, a2, a3, a4, a5, a6, a7, a8, a9, a10, a11⟩ :=
        resizeSlk_ret env sp st2 rc st' hSP2 e
      refine ⟨rc, st', sp', .resize_window st.curscr sp.lines sp.cols ::
          .resize_window st.stdscr st.LINES st.COLS :: new, key.trans e, ?_,
        a1, a2, a3, a4, a5, a6, a7, a8, ⟨st.trace, ?_⟩, ?_, ?_, a11⟩
      · rw [hst, hst2]; simp
      · rw [hst, hst2]
      · intro h; exact Or.inr (Or.inr (a9 h))
      · intro h
        have t := a10 h
        rw [hst, hst2]
        rw [hst2] at t
        refine ⟨h1, h2, ⟨_, rfl⟩, by simp, by simp, ?_⟩
        simp only [List.mem_cons]
        exact Or.inr (Or.inr t)

/-- The whole of `resize_term` once `stdscr` exists, the driver accepted the
request and `SP` is there: it returns, with `SP->lines`, `SP->cols`, `LINES`
and `COLS` overwritten from what the driver reports, whatever happens to the
windows afterwards, and with `SP->resized` as the driver's acknowledgement left
it. `R`, `C` are `reportedRows`, `reportedCols`. -/
theorem resize_term_spec (env : Env) (nlines ncols : Int) (st : State) (sp : SCREEN)
    (hstd : st.stdscr ≠ none) (hacc : env.PDC_resize_screen st.trace nlines ncols ≠ .ERR)
    (hsp : st.SP = some sp) :
    ∃ (rc : RetCode) (st' : State) (sp' : SCREEN) (new : List Event),
      resize_term env nlines ncols st = .ret rc st' ∧
      st' = { st with
              SP := some sp', curscr := st'.curscr, stdscr := st'.stdscr,
              LINES := reportedRows env nlines ncols st - sp.linesrippedoff - sp.slklines,
              COLS := reportedCols env nlines ncols st,
              trace := st.trace ++ new } ∧
      sp'.addr = sp.addr ∧ sp'.alive = sp.alive ∧ sp'.resized = false ∧
      sp'.lines = reportedRows env nlines ncols st ∧
      sp'.cols = reportedCols env nlines ncols st ∧
      sp'.linesrippedoff = sp.linesrippedoff ∧
      sp'.linesrippedoffontop = sp.linesrippedoffontop ∧
      ((∀ tr s, s.slklines = sp.slklines → (env.PDC_slk_initialize tr s).1 = sp.slklines) →
        sp'.slklines = sp.slklines) ∧
      (∃ tr, st'.curscr = env.resize_window tr st.curscr
        (reportedRows env nlines ncols st) (reportedCols env nlines ncols st)) ∧
      (rc = .ERR → st'.curscr = none ∨ st'.stdscr = none ∨
        (sp.slk_winptr ≠ none ∧ sp'.slk_winptr = none)) ∧
      (rc = .OK → st'.curscr ≠ none ∧ st'.stdscr ≠ none ∧
        (∃ tr, st'.stdscr = env.resize_window tr st.stdscr
          (reportedRows env nlines ncols st - sp.linesrippedoff - sp.slklines)
          (reportedCols env nlines ncols st)) ∧
        Event.resize_window st.curscr (reportedRows env nlines ncols st)
          (reportedCols env nlines ncols st) ∈ new ∧
        Event.resize_window st.stdscr
          (reportedRows env nlines ncols st - sp.linesrippedoff - sp.slklines)
          (reportedCols env nlines ncols st) ∈ new ∧
        Event.touchwin st'.stdscr ∈ new) ∧
      ((∀ tr win r c, env.resize_window tr win r c ≠ none) → rc = .OK) := by
  obtain ⟨st1, hst1⟩ : ∃ x : State, x =
      { st with trace := st.trace ++ [.PDC_resize_screen nlines ncols] } := ⟨_, rfl⟩
  have key : resize_term env nlines ncols st =
      resizeWindows env (storeGeometry env (acknowledgeResize sp) st1).1
        (storeGeometry env (acknowledgeResize sp) st1).2 := by
    rw [hst1]
    simp [resize_term, log, hstd, hacc, hsp]
  obtain ⟨g1, g2⟩ := storeGeometry_eq env (acknowledgeResize sp) st1
  have hR : env.PDC_get_rows st1.trace = reportedRows env nlines ncols st := by
    rw [hst1]; rfl
  have hC : env.PDC_get_columns (st1.trace ++ [.PDC_get_rows]) =
      reportedCols env nlines ncols st := by
    rw [hst1]; simp [reportedCols]
  rw [hR, hC] at g1 g2
  generalize storeGeometry env (acknowledgeResize sp) st1 = g at key g1 g2
  obtain ⟨sp2, st2⟩ := g
  simp only at key g1 g2
  simp only [acknowledgeResize] at g1 g2
  have hSP2 : st2.SP = some sp2 := by rw [g2]
  obtain ⟨rc, st', sp', new, e, hst, a1, a2, a3, a4, a5, a6, a7, a8, a9, a10, a11, a12⟩ :=
    resizeWindows_spec env sp2 st2 hSP2
  have b1 : st2.curscr = st.curscr := by rw [g2, hst1]
  have b2 : st2.stdscr = st.stdscr := by rw [g2, hst1]
  have b3 : st2.LINES = reportedRows env nlines ncols st - sp.linesrippedoff - sp.slklines := by
    rw [g2]
  have b4 : st2.COLS = reportedCols env nlines ncols st := by rw [g2]
  have c1 : sp2.lines = reportedRows env nlines ncols st := by rw [g1]
  have c2 : sp2.cols = reportedCols env nlines ncols st := by rw [g1]
  have c3 : sp2.slklines = sp.slklines := by rw [g1]
  have c4 : sp2.slk_winptr = sp.slk_winptr := by rw [g1]
  rw [b1, b2, b3, b4, c1, c2] at a11
  rw [b1, c1, c2] at a9
  rw [c4] at a10
  rw [c3] at a8
  refine ⟨rc, st', sp', .PDC_resize_screen nlines ncols :: .PDC_get_rows :: .PDC_get_columns :: new,
    key.trans e, ?_, ?_, ?_, ?_, a4.trans c1, a5.trans c2, ?_, ?_, a8, a9, a10, ?_, a12⟩
  · conv_lhs => rw [hst]
    rw [g2, hst1]
    simp
  · rw [a1, g1]
  · rw [a2, g1]
  · rw [a3, g1]
  · rw [a6, g1]
  · rw [a7, g1]
  · intro h
    obtain ⟨d1, d2, d3, d4, d5, d6⟩ := a11 h
    exact ⟨d1, d2, d3, by simp [d4], by simp [d5], by simp [d6]⟩

/-- C4. Resize recomputes the main region from the unchanged reservations.
When `resize_term(nlines, ncols)` returns `OK` and the driver reported
`(R, C)`, then `SP->lines = R`, `SP->cols = COLS = C`,
`LINES = R - SP->linesrippedoff - SP->slklines`, the counts
`SP->linesrippedoff`, `SP->linesrippedoffontop` and `SP->slklines` are those of
before the call, `curscr` is what `resize_window(curscr, R, C)` returned and
`stdscr` what `resize_window(stdscr, LINES, COLS)` returned, and
`touchwin(stdscr)` was called on the new `stdscr`. `PDC_slk_initialize`, which
`resize_term` calls when a status strip exists, is taken to keep the height of
the strip (`hslk`). -/
theorem C4_resize_recomputes_main_region (env : Env) (nlines ncols : Int) (st st' : State)
    (sp : SCREEN) (R C : Int)
    (hsp : st.SP = some sp)
    (hR : reportedRows env nlines ncols st = R) (hC : reportedCols env nlines ncols st = C)
    (hslk : ∀ tr s, s.slklines = sp.slklines → (env.PDC_slk_initialize tr s).1 = sp.slklines)
    (hok : resize_term env nlines ncols st = .ret .OK st') :
    ∃ sp' : SCREEN, st'.SP = some sp' ∧
      sp'.lines = R ∧ sp'.cols = C ∧ st'.COLS = C ∧
      st'.LINES = R - sp'.linesrippedoff - sp'.slklines ∧
      sp'.linesrippedoff = sp.linesrippedoff ∧
      sp'.linesrippedoffontop = sp.linesrippedoffontop ∧
      sp'.slklines = sp.slklines ∧
      (∃ tr, st'.curscr = env.resize_window tr st.curscr R C) ∧ st'.curscr ≠ none ∧
      (∃ tr, st'.stdscr = env.resize_window tr st.stdscr st'.LINES st'.COLS) ∧
      st'.stdscr ≠ none ∧
      Event.resize_window st.curscr R C ∈ newCalls st st' ∧
      Event.resize_window st.stdscr st'.LINES st'.COLS ∈ newCalls st st' ∧
      Event.touchwin st'.stdscr ∈ newCalls st st' := by
  have hstd : st.stdscr ≠ none := by
    intro h
    simp [resize_term, h] at hok
  have hacc : env.PDC_resize_screen st.trace nlines ncols ≠ .ERR := by
    intro h
    simp [resize_term, hstd, h] at hok
  obtain ⟨rc, st1, sp', new, e, hst, -, -, -, a4, a5, a6, a7, a8, a9, -, a11, -⟩ :=
    resize_term_spec env nlines ncols st sp hstd hacc hsp
  rw [e] at hok
  simp only [Outcome.ret.injEq] at hok
  obtain ⟨rfl, rfl⟩ := hok
  obtain ⟨d1, d2, d3, d4, d5, d6⟩ := a11 rfl
  subst hR hC
  have hL : st1.LINES =
      reportedRows env nlines ncols st - sp.linesrippedoff - sp.slklines := by rw [hst]
  have hCOLS : st1.COLS = reportedCols env nlines ncols st := by rw [hst]
  have hT : st1.trace = st.trace ++ new := by rw [hst]
  have hs := a8 hslk
  rw [newCalls_append st st1 new hT, hL, hCOLS]
  exact ⟨sp', by rw [hst], a4, a5, rfl, by rw [a6, hs], a6, a7, hs, a9, d1, d3, d2, d4, d5, d6⟩

theorem C4_resize_recomputes_main_region_witness :
    (∃ sp' : SCREEN, demoResized.SP = some sp' ∧
      sp'.lines = 30 ∧ sp'.cols = 100 ∧ demoResized.COLS = 100 ∧
      demoResized.LINES = 30 - sp'.linesrippedoff - sp'.slklines ∧
      sp'.linesrippedoff = demoOpenedSP.linesrippedoff ∧
      sp'.linesrippedoffontop = demoOpenedSP.linesrippedoffontop ∧
      sp'.slklines = demoOpenedSP.slklines ∧
      (∃ tr, demoResized.curscr = (demoEnv 30 100 0).resize_window tr demoOpened.curscr 30 100) ∧
      demoResized.curscr ≠ none ∧
      (∃ tr, demoResized.stdscr =
        (demoEnv 30 100 0).resize_window tr demoOpened.stdscr demoResized.LINES demoResized.COLS) ∧
      demoResized.stdscr ≠ none ∧
      Event.resize_window demoOpened.curscr 30 100 ∈ newCalls demoOpened demoResized ∧
      Event.resize_window demoOpened.stdscr demoResized.LINES demoResized.COLS ∈
        newCalls demoOpened demoResized ∧
      Event.touchwin demoResized.stdscr ∈ newCalls demoOpened demoResized) ∧
    demoOpened.LINES = 23 ∧ demoResized.LINES = 29 :=
  ⟨C4_resize_recomputes_main_region (demoEnv 30 100 0) 0 0 demoOpened demoResized demoOpenedSP
      30 100 rfl rfl rfl (fun _ _ _ => rfl) rfl, rfl, rfl⟩

/-- C5 as stated fails. `demoOpened` is the session opened on 24 x 80 with one
bottom strip. The device shrinks to 1 x 80, so the main height would be
`1 - 1 - 0 = 0 < 1`, and `resize_term(0, 0)` is called with a window factory
that refuses a window without rows. The call returns `ERR`, but not with the
state of before: `SP->lines` is 1 (was 24), `LINES` is 0 (was 23), `curscr` has
been replaced and `stdscr` is `NULL`. -/
theorem C5_counterexample_undersized_resize_not_atomic :
    reportedRows (demoEnv 1 80 0) 0 0 demoOpened
        - demoOpenedSP.linesrippedoff - demoOpenedSP.slklines < 1 ∧
      demoOpened.SP = some demoOpenedSP ∧ demoOpenedSP.lines = 24 ∧ demoOpened.LINES = 23 ∧
      demoOpened.curscr = some { addr := 4, _clear := false } ∧
      demoOpened.stdscr = some { addr := 8, _clear := true } ∧
      resize_term (demoEnv 1 80 0) 0 0 demoOpened =
        .ret .ERR
          { demoOpened with
            SP := some { demoOpenedSP with lines := 1, cols := 80 },
            LINES := 0,
            COLS := 80,
            curscr := some { addr := 15, _clear := false },
            stdscr := none,
            trace := demoOpened.trace ++
              [.PDC_resize_screen 0 0, .PDC_get_rows, .PDC_get_columns,
                .resize_window (some { addr := 4, _clear := false }) 1 80,
                .resize_window (some { addr := 8, _clear := true }) 0 80] } :=
  ⟨by decide, rfl, rfl, rfl, rfl, rfl, rfl⟩

/-- Lines 320-335 return `OK` exactly when there is no status strip or
`resize_window` returned a window for it. -/
theorem resizeSlk_rc (env : Env) (sp : SCREEN) (st : State) :
    ∃ (rc : RetCode) (st' : State),
      resizeSlk env sp st = .ret rc st' ∧
      (rc = .OK ↔ (sp.slk_winptr = none ∨
        env.resize_window st.trace sp.slk_winptr sp.slklines st.COLS ≠ none)) := by
  unfold resizeSlk
  cases hslk : sp.slk_winptr with
  | none => exact ⟨.OK, _, rfl, by simp⟩
  | some slkw =>
    simp only
    cases hw : env.resize_window st.trace (some slkw) sp.slklines st.COLS with
    | none => exact ⟨.ERR, _, if_pos rfl, by simp⟩
    | some w => exact ⟨.OK, _, if_neg (by simp), by simp⟩

/-- Lines 316-335 return `OK` exactly when each `resize_window` call they make
returned a window: the one for `curscr`, then the one for `stdscr`, then, if
`SP->slk_winptr` is set, the one for the status strip. `curscr` is what the
first call returned and, once that is a window, `stdscr` what the second
returned. -/
theorem resizeWindows_rc (env : Env) (sp : SCREEN) (st : State) (hSP : st.SP = some sp) :
    ∃ (rc : RetCode) (st' : State),
      resizeWindows env sp st = .ret rc st' ∧
      st'.curscr = env.resize_window st.trace st.curscr sp.lines sp.cols ∧
      (env.resize_window st.trace st.curscr sp.lines sp.cols ≠ none →
        st'.stdscr = env.resize_window (st.trace ++ [.resize_window st.curscr sp.lines sp.cols])
          st.stdscr st.LINES st.COLS) ∧
      (rc = .OK ↔
        (env.resize_window st.trace st.curscr sp.lines sp.cols ≠ none ∧
          env.resize_window (st.trace ++ [.resize_window st.curscr sp.lines sp.cols])
            st.stdscr st.LINES st.COLS ≠ none ∧
          (sp.slk_winptr = none ∨
            env.resize_window
              (st.trace ++ [.resize_window st.curscr sp.lines sp.cols,
                .resize_window st.stdscr st.LINES st.COLS])
              sp.slk_winptr sp.slklines st.COLS ≠ none))) := by
  by_cases h1 : env.resize_window st.trace st.curscr sp.lines sp.cols = none
  · have key : resizeWindows env sp st = .ret .ERR
        { st with curscr := none,
                  trace := st.trace ++ [.resize_window st.curscr sp.lines sp.cols] } := by
      simp [resizeWindows, log, h1]
    exact ⟨.ERR, _, key, by simp [h1], fun h => absurd h1 h, by simp [h1]⟩
  · by_cases h2 : env.resize_window (st.trace ++ [.resize_window st.curscr sp.lines sp.cols])
        st.stdscr st.LINES st.COLS = none
    · have key : resizeWindows env sp st = .ret .ERR
          { st with curscr := env.resize_window st.trace st.curscr sp.lines sp.cols,
                    stdscr := none,
                    trace := st.trace ++ [.resize_window st.curscr sp.lines sp.cols,
                      .resize_window st.stdscr st.LINES st.COLS] } := by
        simp [resizeWindows, log, h1, h2]
      exact ⟨.ERR, _, key, rfl, fun _ => h2.symm, by simp [h2]⟩
    · obtain ⟨st2, hst2⟩ : ∃ x : State, x =
          { st with curscr := env.resize_window st.trace st.curscr sp.lines sp.cols,
                    stdscr := env.resize_window
                      (st.trace ++ [.resize_window st.curscr sp.lines sp.cols])
                      st.stdscr st.LINES st.COLS,
                    trace := st.trace ++ [.resize_window st.curscr sp.lines sp.cols,
                      .resize_window st.stdscr st.LINES st.COLS] } := ⟨_, rfl⟩
      have key : resizeWindows env sp st = resizeSlk env sp st2 := by
        rw [hst2]
        simp [resizeWindows, log, h1, h2]
      have hSP2 : st2.SP = some sp := by rw [hst2]; exact hSP
      obtain ⟨rc, st', e, hrc⟩ := resizeSlk_rc env sp st2
      obtain ⟨sp', new, hst, -⟩ := resizeSlk_ret env sp st2 rc st' hSP2 e
      have hT : st2.trace = st.trace ++ [.resize_window st.curscr sp.lines sp.cols,
          .resize_window st.stdscr st.LINES st.COLS] := by rw [hst2]
      have hC : st2.COLS = st.COLS := by rw [hst2]
      rw [hT, hC] at hrc
      refine ⟨rc, st', key.trans e, ?_, ?_, ?_⟩
      · rw [hst, hst2]
      · intro _
        rw [hst, hst2]
      · rw [hrc]
        exact ⟨fun h => ⟨h1, h2, h⟩, fun h => h.2.2⟩

/-- C5, amended. `resize_term` has no size check of its own. For every session
with `stdscr` and `SP` present, once the driver has accepted the request and
reports `(R, C)`, also when `R - SP->linesrippedoff - SP->slklines < 1` or
`C < 1`, `resize_term` returns with `SP->lines = R`, `SP->cols = COLS = C` and
`LINES = R - SP->linesrippedoff - SP->slklines` stored, and with `curscr`
replaced by what `resize_window(curscr, R, C)` returned (and `stdscr` by what
`resize_window(stdscr, LINES, COLS)` returned, once `curscr` could be resized).
It returns `OK` exactly when each `resize_window` call it makes returned a
window: the one for `curscr`, then the one for `stdscr`, then, if
`SP->slk_winptr` is set, the one for the status strip; it returns `ERR` exactly
when one of these calls returned `NULL`. -/
theorem C5_resize_has_no_size_check (env : Env) (nlines ncols : Int) (st : State) (sp : SCREEN)
    (hstd : st.stdscr ≠ none) (hsp : st.SP = some sp)
    (hacc : env.PDC_resize_screen st.trace nlines ncols ≠ .ERR) :
    ∃ (rc : RetCode) (st' : State) (sp' : SCREEN),
      resize_term env nlines ncols st = .ret rc st' ∧
      st'.SP = some sp' ∧
      sp'.lines = reportedRows env nlines ncols st ∧
      sp'.cols = reportedCols env nlines ncols st ∧
      st'.COLS = reportedCols env nlines ncols st ∧
      st'.LINES = reportedRows env nlines ncols st - sp.linesrippedoff - sp.slklines ∧
      st'.curscr = resizedCurscr env nlines ncols st ∧
      (resizedCurscr env nlines ncols st ≠ none →
        st'.stdscr = resizedStdscr env nlines ncols st sp) ∧
      (rc = .OK ↔
        (resizedCurscr env nlines ncols st ≠ none ∧
          resizedStdscr env nlines ncols st sp ≠ none ∧
          (sp.slk_winptr = none ∨ resizedSlk env nlines ncols st sp ≠ none))) ∧
      (rc = .ERR ↔
        (resizedCurscr env nlines ncols st = none ∨
          resizedStdscr env nlines ncols st sp = none ∨
          (sp.slk_winptr ≠ none ∧ resizedSlk env nlines ncols st sp = none))) := by
  obtain ⟨rc, st', sp', new, e, hst, -, -, -, a4, a5, -⟩ :=
    resize_term_spec env nlines ncols st sp hstd hacc hsp
  obtain ⟨st1, hst1⟩ : ∃ x : State, x =
      { st with trace := st.trace ++ [.PDC_resize_screen nlines ncols] } := ⟨_, rfl⟩
  have key : resize_term env nlines ncols st =
      resizeWindows env (storeGeometry env (acknowledgeResize sp) st1).1
        (storeGeometry env (acknowledgeResize sp) st1).2 := by
    rw [hst1]
    simp [resize_term, log, hstd, hacc, hsp]
  obtain ⟨g1, g2⟩ := storeGeometry_eq env (acknowledgeResize sp) st1
  have hR : env.PDC_get_rows st1.trace = reportedRows env nlines ncols st := by
    rw [hst1]; rfl
  have hC : env.PDC_get_columns (st1.trace ++ [.PDC_get_rows]) =
      reportedCols env nlines ncols st := by
    rw [hst1]; simp [reportedCols]
  rw [hR, hC] at g1 g2
  generalize storeGeometry env (acknowledgeResize sp) st1 = g at key g1 g2
  obtain ⟨sp2, st2⟩ := g
  simp only at key g1 g2
  simp only [acknowledgeResize] at g1 g2
  have hSP2 : st2.SP = some sp2 := by rw [g2]
  obtain ⟨rc2, st2', e2, r1, r2, r3⟩ := resizeWindows_rc env sp2 st2 hSP2
  rw [key, e2] at e
  simp only [Outcome.ret.injEq] at e
  obtain ⟨rfl, rfl⟩ := e
  have b1 : st2.curscr = st.curscr := by rw [g2, hst1]
  have b2 : st2.stdscr = st.stdscr := by rw [g2, hst1]
  have b3 : st2.LINES = reportedRows env nlines ncols st - sp.linesrippedoff - sp.slklines := by
    rw [g2]
  have b4 : st2.COLS = reportedCols env nlines ncols st := by rw [g2]
  have b5 : st2.trace = st.trace ++
      [.PDC_resize_screen nlines ncols, .PDC_get_rows, .PDC_get_columns] := by
    rw [g2, hst1]; simp
  have c1 : sp2.lines = reportedRows env nlines ncols st := by rw [g1]
  have c2 : sp2.cols = reportedCols env nlines ncols st := by rw [g1]
  have c3 : sp2.slklines = sp.slklines := by rw [g1]
  have c4 : sp2.slk_winptr = sp.slk_winptr := by rw [g1]
  rw [b1, b2, b3, b4, b5, c1, c2, c3, c4] at r3
  rw [b1, b2, b3, b4, b5, c1, c2] at r2
  rw [b1, b5, c1, c2] at r1
  simp only [List.append_assoc, List.cons_append, List.nil_append] at r2 r3
  have hok : rc2 = .OK ↔
      (resizedCurscr env nlines ncols st ≠ none ∧
        resizedStdscr env nlines ncols st sp ≠ none ∧
        (sp.slk_winptr = none ∨ resizedSlk env nlines ncols st sp ≠ none)) := r3
  refine ⟨rc2, st2', sp', key.trans e2, by rw [hst], a4, a5, by rw [hst], by rw [hst], r1, r2,
    hok, ?_⟩
  have hne : rc2 = .ERR ↔ ¬ rc2 = .OK := by cases rc2 <;> simp
  rw [hne, hok]
  by_cases q1 : resizedCurscr env nlines ncols st = none
  · simp [q1]
  · by_cases q2 : resizedStdscr env nlines ncols st sp = none
    · simp [q2]
    · by_cases q3 : sp.slk_winptr = none
      · simp [q1, q2, q3]
      · simp [q1, q2, q3]

theorem C5_resize_has_no_size_check_witness :
    (∃ (rc : RetCode) (st' : State) (sp' : SCREEN),
      resize_term (demoEnv 30 100 0) 0 0 demoOpened = .ret rc st' ∧
      st'.SP = some sp' ∧
      sp'.lines = reportedRows (demoEnv 30 100 0) 0 0 demoOpened ∧
      sp'.cols = reportedCols (demoEnv 30 100 0) 0 0 demoOpened ∧
      st'.COLS = reportedCols (demoEnv 30 100 0) 0 0 demoOpened ∧
      st'.LINES = reportedRows (demoEnv 30 100 0) 0 0 demoOpened
        - demoOpenedSP.linesrippedoff - demoOpenedSP.slklines ∧
      st'.curscr = resizedCurscr (demoEnv 30 100 0) 0 0 demoOpened ∧
      (resizedCurscr (demoEnv 30 100 0) 0 0 demoOpened ≠ none →
        st'.stdscr = resizedStdscr (demoEnv 30 100 0) 0 0 demoOpened demoOpenedSP) ∧
      (rc = .OK ↔
        (resizedCurscr (demoEnv 30 100 0) 0 0 demoOpened ≠ none ∧
          resizedStdscr (demoEnv 30 100 0) 0 0 demoOpened demoOpenedSP ≠ none ∧
          (demoOpenedSP.slk_winptr = none ∨
            resizedSlk (demoEnv 30 100 0) 0 0 demoOpened demoOpenedSP ≠ none))) ∧
      (rc = .ERR ↔
        (resizedCurscr (demoEnv 30 100 0) 0 0 demoOpened = none ∨
          resizedStdscr (demoEnv 30 100 0) 0 0 demoOpened demoOpenedSP = none ∨
          (demoOpenedSP.slk_winptr ≠ none ∧
            resizedSlk (demoEnv 30 100 0) 0 0 demoOpened demoOpenedSP = none)))) ∧
    resize_term (demoEnv 30 100 0) 0 0 demoOpened = .ret .OK demoResized ∧
    resizedCurscr (demoEnv 30 100 0) 0 0 demoOpened = some { addr := 15, _clear := false } ∧
    resizedStdscr (demoEnv 30 100 0) 0 0 demoOpened demoOpenedSP =
      some { addr := 16, _clear := true } ∧
    demoOpenedSP.slk_winptr = none ∧
    (∃ (rc : RetCode) (st' : State) (sp' : SCREEN),
      resize_term (demoEnv 1 80 0) 0 0 demoOpened = .ret rc st' ∧
      st'.SP = some sp' ∧
      sp'.lines = reportedRows (demoEnv 1 80 0) 0 0 demoOpened ∧
      sp'.cols = reportedCols (demoEnv 1 80 0) 0 0 demoOpened ∧
      st'.COLS = reportedCols (demoEnv 1 80 0) 0 0 demoOpened ∧
      st'.LINES = reportedRows (demoEnv 1 80 0) 0 0 demoOpened
        - demoOpenedSP.linesrippedoff - demoOpenedSP.slklines ∧
      st'.curscr = resizedCurscr (demoEnv 1 80 0) 0 0 demoOpened ∧
      (resizedCurscr (demoEnv 1 80 0) 0 0 demoOpened ≠ none →
        st'.stdscr = resizedStdscr (demoEnv 1 80 0) 0 0 demoOpened demoOpenedSP) ∧
      (rc = .OK ↔
        (resizedCurscr (demoEnv 1 80 0) 0 0 demoOpened ≠ none ∧
          resizedStdscr (demoEnv 1 80 0) 0 0 demoOpened demoOpenedSP ≠ none ∧
          (demoOpenedSP.slk_winptr = none ∨
            resizedSlk (demoEnv 1 80 0) 0 0 demoOpened demoOpenedSP ≠ none))) ∧
      (rc = .ERR ↔
        (resizedCurscr (demoEnv 1 80 0) 0 0 demoOpened = none ∨
          resizedStdscr (demoEnv 1 80 0) 0 0 demoOpened demoOpenedSP = none ∨
          (demoOpenedSP.slk_winptr ≠ none ∧
            resizedSlk (demoEnv 1 80 0) 0 0 demoOpened demoOpenedSP = none)))) ∧
    resizedCurscr (demoEnv 1 80 0) 0 0 demoOpened = some { addr := 15, _clear := false } ∧
    resizedStdscr (demoEnv 1 80 0) 0 0 demoOpened demoOpenedSP = none ∧
    (resize_term (demoEnv 1 80 0) 0 0 demoOpened).state.LINES = 0 :=
  ⟨C5_resize_has_no_size_check (demoEnv 30 100 0) 0 0 demoOpened demoOpenedSP
      (Option.some_ne_none _) rfl (by decide), rfl, rfl, rfl, rfl,
    C5_resize_has_no_size_check (demoEnv 1 80 0) 0 0 demoOpened demoOpenedSP
      (Option.some_ne_none _) rfl (by decide), rfl, rfl, rfl⟩

/-- C6. A resize that the driver rejects is atomic: when `stdscr` exists and
`PDC_resize_screen(nlines, ncols)` returns `ERR`, `resize_term` returns `ERR`
in the state it was called in, but for the record of that one driver call:
`SP` (with `SP->lines`, `SP->cols` and the status-strip window
`SP->slk_winptr`), `LINES`, `COLS`, `stdscr` and `curscr` are unchanged and no
`resize_window` call is made. -/
theorem C6_driver_rejected_resize_is_atomic (env : Env) (nlines ncols : Int) (st : State)
    (hstd : st.stdscr ≠ none)
    (hrej : env.PDC_resize_screen st.trace nlines ncols = .ERR) :
    resize_term env nlines ncols st =
      .ret .ERR { st with trace := st.trace ++ [.PDC_resize_screen nlines ncols] } := by
  simp [resize_term, hstd, hrej, log]

theorem C6_driver_rejected_resize_is_atomic_witness :
    resize_term rejectingEnv 40 120 demoOpened =
      .ret .ERR { demoOpened with trace := demoOpened.trace ++ [.PDC_resize_screen 40 120] } :=
  C6_driver_rejected_resize_is_atomic rejectingEnv 40 120 demoOpened
    (Option.some_ne_none _) rfl

/-- C7 as stated fails. After `endwin()` on the open session `demoOpened`, a
second `endwin()` returns `OK` as well, but it calls `def_prog_mode()` and
`PDC_scr_close()` again: the driver is asked a second time to release the
device. -/
theorem C7_counterexample_second_endwin_calls_driver :
    endwin demoOpened = .ret .OK demoClosed ∧
      endwin demoClosed = .ret .OK demoClosedTwice ∧
      demoClosed.isOpen = false ∧
      newCalls demoClosed demoClosedTwice = [.def_prog_mode, .PDC_scr_close] ∧
      Event.PDC_scr_close ∈ newCalls demoClosed demoClosedTwice :=
  ⟨rfl, rfl, rfl, rfl, by decide⟩

/-- C7, amended. For every state in which `SP` exists, `endwin` followed by
`endwin` returns `OK` both times and every global after the second call has the
value it had after the first (`SP->alive` stays `FALSE`); but `endwin` has no
guard for a closed session, so the second call runs `def_prog_mode()` and
`PDC_scr_close()` again. -/
theorem C7_endwin_twice (st : State) (sp : SCREEN) (hsp : st.SP = some sp) :
    ∃ st1 st2 : State,
      endwin st = .ret .OK st1 ∧
      endwin st1 = .ret .OK st2 ∧
      st1 = { st with SP := some { sp with alive := false },
                      trace := st.trace ++ [.def_prog_mode, .PDC_scr_close] } ∧
      st2 = { st1 with trace := st1.trace ++ [.def_prog_mode, .PDC_scr_close] } := by
  refine ⟨_, _, ?_, ?_, rfl, rfl⟩
  · simp [endwin, log, hsp]
  · simp [endwin, log]

theorem C7_endwin_twice_witness :
    ∃ st1 st2 : State,
      endwin demoOpened = .ret .OK st1 ∧
      endwin st1 = .ret .OK st2 ∧
      st1 = { demoOpened with SP := some { demoOpenedSP with alive := false },
                              trace := demoOpened.trace ++ [.def_prog_mode, .PDC_scr_close] } ∧
      st2 = { st1 with trace := st1.trace ++ [.def_prog_mode, .PDC_scr_close] } :=
  C7_endwin_twice demoOpened demoOpenedSP rfl

/-- C8. Close only suspends control. For every session (`SP` exists), `endwin`
returns `OK` in the state it was called in with `SP->alive` cleared and the
calls `def_prog_mode()`, `PDC_scr_close()` recorded: `stdscr`, `curscr`,
`LINES`, `COLS` and every other member of `SP` (geometry and ripped-line counts
among them) are unchanged and `SP` is still there. `isendwin` answers `TRUE` in
that state, and `FALSE` in the state a successful `Xinitscr` returns in. -/
theorem C8_close_only_suspends (st : State) (sp : SCREEN) (hsp : st.SP = some sp) :
    endwin st =
        .ret .OK { st with SP := some { sp with alive := false },
                           trace := st.trace ++ [.def_prog_mode, .PDC_scr_close] } ∧
      isendwin { st with SP := some { sp with alive := false },
                         trace := st.trace ++ [.def_prog_mode, .PDC_scr_close] } =
        .ret true { st with SP := some { sp with alive := false },
                            trace := st.trace ++ [.def_prog_mode, .PDC_scr_close] } ∧
      (∀ (env : Env) (argc : Int) (argv : List String) (st0 : State) (w : WINDOW),
        Xinitscr env argc argv st0 = .ret (some w) st → isendwin st = .ret false st) := by
  refine ⟨by simp [endwin, log, hsp], by simp [isendwin], ?_⟩
  intro env argc argv st0 w h
  obtain ⟨-, sp0, atrtab, cw, sw, slk, loop, tail, -, -, -, -, -, -, -, h8, -⟩ :=
    Xinitscr_success env argc argv st0 w st h
  have hSP := congrArg State.SP h8
  simp only at hSP
  rw [hsp] at hSP
  simp only [Option.some.injEq] at hSP
  simp [isendwin, hsp, hSP]

theorem C8_close_only_suspends_witness :
    endwin demoOpened =
        .ret .OK { demoOpened with SP := some { demoOpenedSP with alive := false },
                                   trace := demoOpened.trace ++ [.def_prog_mode, .PDC_scr_close] } ∧
      isendwin { demoOpened with SP := some { demoOpenedSP with alive := false },
                                 trace := demoOpened.trace ++ [.def_prog_mode, .PDC_scr_close] } =
        .ret true { demoOpened with SP := some { demoOpenedSP with alive := false },
                                    trace := demoOpened.trace ++ [.def_prog_mode, .PDC_scr_close] } ∧
      (∀ (env : Env) (argc : Int) (argv : List String) (st0 : State) (w : WINDOW),
        Xinitscr env argc argv st0 = .ret (some w) demoOpened →
          isendwin demoOpened = .ret false demoOpened) :=
  C8_close_only_suspends demoOpened demoOpenedSP rfl

/-- When `stdscr` cannot be created the open ends in `exit(1)`; otherwise it
returns. No other exit is left after `curscr` exists. -/
theorem stripsOpen_exit (env : Env) (sp : SCREEN) (st : State) (code : Int) (st' : State)
    (h : stripsOpen env sp st = .exit code st') : code = 1 := by
  have key : ∀ sp2 st2, stdscrOpen env sp2 st2 = .exit code st' → code = 1 := by
    intro sp2 st2 h2
    unfold stdscrOpen at h2
    simp only at h2
    cases hsw : env.newwin st2.trace st2.LINES st2.COLS sp2.linesrippedoffontop 0 with
    | none =>
      simp only [hsw, Outcome.exit.injEq] at h2
      exact h2.1.symm
    | some sw =>
      simp only [hsw] at h2
      rw [finishOpen_eq env sp2 sw _ rfl] at h2
      simp at h2
  exact key _ _ h

/-- From a closed state in which the driver opens the device, `Xinitscr` is
lines 163-232 run on the `SCREEN` the driver allocated. -/
theorem Xinitscr_opened (env : Env) (argc : Int) (argv : List String) (st : State)
    (sp0 : SCREEN) (atrtab : Option Nat) (hclosed : st.isOpen = false)
    (hopen : env.PDC_scr_open st.trace argc argv = some (sp0, atrtab)) :
    Xinitscr env argc argv st =
      layoutOpen env
        { initSP sp0 with
          orig_cursor := env.PDC_get_cursor_mode (st.trace ++ [.PDC_scr_open argc argv]) }
        { st with
          SP := some { initSP sp0 with
            orig_cursor := env.PDC_get_cursor_mode (st.trace ++ [.PDC_scr_open argc argv]) },
          pdc_atrtab := atrtab,
          trace := st.trace ++ [.PDC_scr_open argc argv, .PDC_get_cursor_mode] } := by
  have hc : ¬ (match st.SP with
      | some sp => sp.alive
      | none => false) = true := by
    have : st.isOpen = (match st.SP with
      | some sp => sp.alive
      | none => false) := rfl
    rw [← this, hclosed]
    simp
  unfold Xinitscr
  rw [if_neg hc]
  simp [hopen, log]

/-- C9. An undersized screen is fatal at open. From a closed state in which
the driver opens the device and reports `sp0.lines` x `sp0.cols`, `Xinitscr`
ends in `exit(4)` exactly when `sp0.lines < 2` or `sp0.cols < 2`. When it does,
no `newwin` call has been made, `curscr` and `stdscr` are what they were, and
`SP->alive` has not been written: it has the value the driver left in the
`SCREEN` it allocated. -/
theorem C9_undersized_screen_is_fatal (env : Env) (argc : Int) (argv : List String)
    (st : State) (sp0 : SCREEN) (atrtab : Option Nat) (hclosed : st.isOpen = false)
    (hopen : env.PDC_scr_open st.trace argc argv = some (sp0, atrtab)) :
    ((∃ st', Xinitscr env argc argv st = .exit 4 st') ↔ (sp0.lines < 2 ∨ sp0.cols < 2)) ∧
      ∀ st', Xinitscr env argc argv st = .exit 4 st' →
        newwinCalls (newCalls st st') = [] ∧
        st'.curscr = st.curscr ∧ st'.stdscr = st.stdscr ∧
        ∃ sp' : SCREEN, st'.SP = some sp' ∧ sp'.alive = sp0.alive := by
  obtain ⟨sp1, hsp1⟩ : ∃ x : SCREEN, x =
      { initSP sp0 with
        orig_cursor := env.PDC_get_cursor_mode (st.trace ++ [.PDC_scr_open argc argv]) } :=
    ⟨_, rfl⟩
  obtain ⟨st1, hst1⟩ : ∃ x : State, x =
      { st with SP := some sp1, pdc_atrtab := atrtab,
                trace := st.trace ++ [.PDC_scr_open argc argv, .PDC_get_cursor_mode] } :=
    ⟨_, rfl⟩
  have hX : Xinitscr env argc argv st = layoutOpen env sp1 st1 := by
    rw [hst1, hsp1]
    exact Xinitscr_opened env argc argv st sp0 atrtab hclosed hopen
  have e1 : sp1.lines = sp0.lines := by rw [hsp1]; rfl
  have e2 : sp1.cols = sp0.cols := by rw [hsp1]; rfl
  have e3 : sp1.alive = sp0.alive := by rw [hsp1]; rfl
  rw [hX]
  by_cases hsmall : sp0.lines < 2 ∨ sp0.cols < 2
  · have e : layoutOpen env sp1 st1 = .exit 4
          { st1 with LINES := sp1.lines, COLS := sp1.cols,
                     trace := st1.trace ++
                       [.fprintf "initscr(): LINES=%d COLS=%d: too small.\n"
                         [sp1.lines, sp1.cols]] } := by
      simp [layoutOpen, e1, e2, hsmall, log]
    rw [e]
    refine ⟨⟨fun _ => hsmall, fun _ => ⟨_, rfl⟩⟩, ?_⟩
    intro st' h
    simp only [Outcome.exit.injEq, true_and] at h
    subst h
    refine ⟨?_, by rw [hst1], by rw [hst1], sp1, by rw [hst1], e3⟩
    rw [newCalls_append st _ ([.PDC_scr_open argc argv, .PDC_get_cursor_mode] ++
      [.fprintf "initscr(): LINES=%d COLS=%d: too small.\n" [sp1.lines, sp1.cols]])
      (by rw [hst1]; simp)]
    simp [newwinCalls]
  · have e : ∀ st', layoutOpen env sp1 st1 ≠ .exit 4 st' := by
      intro st' h
      unfold layoutOpen at h
      simp only [e1, e2, hsmall, if_false] at h
      split at h
      · simp at h
      · have := stripsOpen_exit env _ _ _ _ h
        simp at this
    refine ⟨⟨fun ⟨st', h⟩ => absurd h (e _), fun h => absurd h hsmall⟩, ?_⟩
    intro st' h
    exact absurd h (e _)

theorem C9_undersized_screen_is_fatal_witness :
    (((∃ st', Xinitscr (demoEnv 1 80 0) 0 [] State.initial = .exit 4 st') ↔
        ((freshScreen 1 80).lines < 2 ∨ (freshScreen 1 80).cols < 2)) ∧
      ∀ st', Xinitscr (demoEnv 1 80 0) 0 [] State.initial = .exit 4 st' →
        newwinCalls (newCalls State.initial st') = [] ∧
        st'.curscr = State.initial.curscr ∧ st'.stdscr = State.initial.stdscr ∧
        ∃ sp' : SCREEN, st'.SP = some sp' ∧ sp'.alive = (freshScreen 1 80).alive) ∧
    Xinitscr (demoEnv 1 80 0) 0 [] State.initial = .exit 4 demoTooSmall ∧
    demoTooSmall.isOpen = false ∧ demoTooSmall.curscr = none ∧ demoTooSmall.stdscr = none :=
  ⟨C9_undersized_screen_is_fatal (demoEnv 1 80 0) 0 [] State.initial (freshScreen 1 80) (some 1)
      rfl rfl, rfl, rfl, rfl, rfl⟩

/-- C10 as stated fails. On a 2 x 80 device with one bottom strip registered
and no status strip, `Xinitscr` succeeds (it returns `stdscr` and the session is
alive) with `LINES = 1`, below the minimum of 2 rows: the windows are `curscr`
(2 x 80), the strip at row 1 and `stdscr` (1 x 80) at row 0. -/
theorem C10_counterexample_main_height_below_minimum :
    Xinitscr (demoEnv 2 80 0) 0 [] (registered [bottomStrip 0]) =
        .ret (some { addr := 8, _clear := true }) demoSmall ∧
      demoSmall.stdscr = some { addr := 8, _clear := true } ∧
      demoSmall.isOpen = true ∧
      newwinCalls (newCalls (registered [bottomStrip 0]) demoSmall) =
        [(2, 80, 0, 0), (1, 80, 1, 0), (1, 80, 0, 0)] ∧
      demoSmall.LINES = 1 ∧ demoSmall.LINES < 2 :=
  ⟨rfl, rfl, rfl, rfl, rfl, by decide⟩

/-- C10, amended. The minimum of 2 applies to the raw geometry, before the
reservations are taken off: if `Xinitscr` succeeds (returns `stdscr`, session
alive) then `SP->lines >= 2`, `COLS = SP->cols >= 2` and
`LINES = SP->lines - SP->slklines - SP->linesrippedoff`, with
`SP->linesrippedoff` the number of registered strips. -/
theorem C10_minimum_applies_to_raw_geometry (env : Env) (argc : Int) (argv : List String)
    (st st' : State) (w : WINDOW)
    (hsucc : Xinitscr env argc argv st = .ret (some w) st') :
    st'.stdscr = some w ∧ st'.isOpen = true ∧
    ∃ sp : SCREEN, st'.SP = some sp ∧
      2 ≤ sp.lines ∧ 2 ≤ st'.COLS ∧ st'.COLS = sp.cols ∧
      st'.LINES = sp.lines - sp.slklines - sp.linesrippedoff ∧
      sp.linesrippedoff = st.linesripped.length := by
  obtain ⟨-, sp0, atrtab, cw, sw, slk, loop, tail, -, h2, h3, -, -, -, -, h8, -⟩ :=
    Xinitscr_success env argc argv st w st' hsucc
  subst h8
  exact ⟨rfl, rfl, _, rfl, h2, h3, rfl, rfl, rfl⟩

theorem C10_minimum_applies_to_raw_geometry_witness :
    demoSmall.stdscr = some { addr := 8, _clear := true } ∧ demoSmall.isOpen = true ∧
    ∃ sp : SCREEN, demoSmall.SP = some sp ∧
      2 ≤ sp.lines ∧ 2 ≤ demoSmall.COLS ∧ demoSmall.COLS = sp.cols ∧
      demoSmall.LINES = sp.lines - sp.slklines - sp.linesrippedoff ∧
      sp.linesrippedoff = (registered [bottomStrip 0]).linesripped.length :=
  C10_minimum_applies_to_raw_geometry (demoEnv 2 80 0) 0 [] (registered [bottomStrip 0])
    demoSmall { addr := 8, _clear := true } rfl

theorem topCount_cons (r : RIPPEDOFFLINE) (rs : List RIPPEDOFFLINE) :
    topCount (r :: rs) = (if r.line < 0 then 0 else 1) + topCount rs := by
  by_cases hr : r.line < 0
  · simp [topCount, hr]
  · have hr' : 0 ≤ r.line := not_lt.mp hr
    simp [topCount, hr, hr']
    omega

/-- The row of every strip window that the loop creates. The `i`-th pass makes
the `i`-th `newwin` call of the loop: for a bottom strip at row
`LINES - 1 - i`, for a top strip at row `SP->linesrippedoffontop` plus the
number of top strips among the `i` entries before it; `LINES` and
`SP->linesrippedoffontop` are the values at loop entry. -/
theorem ripLoop_rows (env : Env) (rs : List RIPPEDOFFLINE) (sp : SCREEN) (st : State)
    (new : List Event) (hnew : (ripLoop env rs sp st).2.trace = st.trace ++ new)
    (i : Nat) (r : RIPPEDOFFLINE) (hr : rs[i]? = some r) :
    (newwinCalls new)[i]? =
      some ((1 : Int), st.COLS,
        (if r.line < 0 then st.LINES - 1 - (i : Int)
         else sp.linesrippedoffontop + topCount (rs.take i)), (0 : Int)) := by
  induction rs generalizing sp st new i with
  | nil => simp at hr
  | cons r0 rest ih =>
    obtain ⟨e1, e2⟩ := ripStep_eq env r0 sp st
    obtain ⟨new', h1, -, -⟩ :=
      ripLoop_trace env rest (ripStep env r0 sp st).1 (ripStep env r0 sp st).2
    have hL : (ripStep env r0 sp st).2.LINES = st.LINES - 1 := by rw [e2]
    have hC : (ripStep env r0 sp st).2.COLS = st.COLS := by rw [e2]
    have hTop : (ripStep env r0 sp st).1.linesrippedoffontop =
        sp.linesrippedoffontop + (if r0.line < 0 then 0 else 1) := by rw [e1]
    have hT : (ripStep env r0 sp st).2.trace = st.trace ++
        [.newwin 1 st.COLS (if r0.line < 0 then st.LINES - 1 else sp.linesrippedoffontop) 0,
         .init r0.init (env.newwin st.trace 1 st.COLS
            (if r0.line < 0 then st.LINES - 1 else sp.linesrippedoffontop) 0) st.COLS] := by
      rw [e2]
    have hn : new =
        .newwin 1 st.COLS (if r0.line < 0 then st.LINES - 1 else sp.linesrippedoffontop) 0 ::
        .init r0.init (env.newwin st.trace 1 st.COLS
            (if r0.line < 0 then st.LINES - 1 else sp.linesrippedoffontop) 0) st.COLS ::
        new' := by
      simp only [ripLoop] at hnew
      rw [h1, hT] at hnew
      simpa using hnew.symm
    subst hn
    cases i with
    | zero =>
      have hr0 : r0 = r := by simpa using hr
      subst hr0
      by_cases hb : r0.line < 0
      · simp [newwinCalls, hb]
      · simp [newwinCalls, hb, topCount]
    | succ j =>
      have hrj : rest[j]? = some r := by simpa using hr
      have h2 := ih (ripStep env r0 sp st).1 (ripStep env r0 sp st).2 new' h1 j hrj
      rw [hL, hC, hTop] at h2
      simp only [newwinCalls, List.getElem?_cons_succ, h2, List.take_succ_cons, topCount_cons]
      by_cases hb : r.line < 0
      · simp only [hb, if_true, Nat.cast_succ]
        rw [sub_sub (st.LINES - 1) 1 (j : Int), add_comm (1 : Int) (j : Int)]
      · simp only [hb, if_false]
        rw [add_assoc]

/-- The `newwin` calls of lines 179-232 when `stdscr` can be created: one per
registered strip, at the rows of `ripLoop_rows`, then the call for `stdscr`. -/
theorem stripsOpen_rows (env : Env) (sp : SCREEN) (st : State) (w : WINDOW) (st' : State)
    (h : stripsOpen env sp st = .ret (some w) st') :
    ∃ (slk : Int × Option WINDOW) (new : List Event) (strips : List (Int × Int × Int × Int)),
      slk = env.PDC_slk_initialize st.trace sp ∧
      st'.trace = st.trace ++ new ∧
      newwinCalls new = strips ++
        [(st.LINES - slk.1 - st.linesripped.length, st.COLS,
          sp.linesrippedoffontop + topCount st.linesripped, 0)] ∧
      strips.length = st.linesripped.length ∧
      ∀ (i : Nat) (r : RIPPEDOFFLINE), st.linesripped[i]? = some r →
        strips[i]? = some ((1 : Int), st.COLS,
          (if r.line < 0 then st.LINES - slk.1 - 1 - (i : Int)
           else sp.linesrippedoffontop + topCount (st.linesripped.take i)), (0 : Int)) := by
  obtain ⟨slk, hslk⟩ : ∃ x, x = env.PDC_slk_initialize st.trace sp := ⟨_, rfl⟩
  obtain ⟨sp1, hsp1⟩ : ∃ x : SCREEN, x = { sp with slklines := slk.1, slk_winptr := slk.2 } :=
    ⟨_, rfl⟩
  obtain ⟨st1, hst1⟩ : ∃ x : State, x =
      { st with SP := some sp1, LINES := st.LINES - slk.1,
                trace := st.trace ++ [Event.PDC_slk_initialize] } := ⟨_, rfl⟩
  have e : stripsOpen env sp st =
      stdscrOpen env (ripLoop env st.linesripped sp1 st1).1
        (ripLoop env st.linesripped sp1 st1).2 := by
    subst hst1 hsp1 hslk; rfl
  rw [e] at h
  have hSP : st1.SP = some sp1 := by rw [hst1]
  obtain ⟨f1, f2⟩ := ripLoop_fields env st.linesripped sp1 st1 hSP
  obtain ⟨loop, t1, -, t3⟩ := ripLoop_trace env st.linesripped sp1 st1
  have t5 := ripLoop_rows env st.linesripped sp1 st1 loop t1
  generalize ripLoop env st.linesripped sp1 st1 = p at h f1 f2 t1
  obtain ⟨sp2, st2⟩ := p
  simp only at h f1 f2 t1
  obtain ⟨sw, tail, -, -, g3, g4, -⟩ := stdscrOpen_ret env sp2 st2 w st' h
  have hL : st2.LINES = st.LINES - slk.1 - st.linesripped.length := by rw [f2, hst1]
  have hC : st2.COLS = st.COLS := by rw [f2, hst1]
  have hTop : sp2.linesrippedoffontop = sp.linesrippedoffontop + topCount st.linesripped := by
    rw [f1, hsp1]
  refine ⟨slk, Event.PDC_slk_initialize :: loop ++
      .newwin (st.LINES - slk.1 - st.linesripped.length) st.COLS
        (sp.linesrippedoffontop + topCount st.linesripped) 0 :: tail,
    newwinCalls loop, hslk, ?_, ?_, t3, ?_⟩
  · rw [g3, t1, hL, hC, hTop, hst1]
    simp
  · have hsplit : Event.PDC_slk_initialize :: loop ++
        .newwin (st.LINES - slk.1 - st.linesripped.length) st.COLS
          (sp.linesrippedoffontop + topCount st.linesripped) 0 :: tail =
        [Event.PDC_slk_initialize] ++ (loop ++
          .newwin (st.LINES - slk.1 - st.linesripped.length) st.COLS
            (sp.linesrippedoffontop + topCount st.linesripped) 0 :: tail) := by
      simp
    rw [hsplit, newwinCalls_append, newwinCalls_append]
    simp [newwinCalls, g4]
  · intro i r hr
    have := t5 i r hr
    rw [hst1, hsp1] at this
    exact this

/-- The `newwin` calls of a successful `Xinitscr`, in order: `curscr`, one
call per registered strip, `stdscr`. `strips` are the calls for the strips:
the `i`-th registered strip is created at row `H - s - 1 - i` when it is
bottom-anchored and at the row that counts the top-anchored strips before it
when it is top-anchored, `H` being the raw height and `s` the height
`PDC_slk_initialize` stored in `SP->slklines`. -/
theorem Xinitscr_strips (env : Env) (argc : Int) (argv : List String) (st : State)
    (w : WINDOW) (st' : State) (h : Xinitscr env argc argv st = .ret (some w) st') :
    ∃ (sp0 : SCREEN) (atrtab : Option Nat) (slk : Int × Option WINDOW)
      (strips : List (Int × Int × Int × Int)),
      env.PDC_scr_open st.trace argc argv = some (sp0, atrtab) ∧
      slk = env.PDC_slk_initialize
        (st.trace ++ [.PDC_scr_open argc argv, .PDC_get_cursor_mode,
          .newwin sp0.lines sp0.cols 0 0])
        { initSP sp0 with
          orig_cursor := env.PDC_get_cursor_mode (st.trace ++ [.PDC_scr_open argc argv]) } ∧
      newwinCalls (newCalls st st') =
        (sp0.lines, sp0.cols, 0, 0) :: strips ++
          [(sp0.lines - slk.1 - st.linesripped.length, sp0.cols, topCount st.linesripped, 0)] ∧
      strips.length = st.linesripped.length ∧
      ∀ (i : Nat) (r : RIPPEDOFFLINE), st.linesripped[i]? = some r →
        strips[i]? = some ((1 : Int), sp0.cols,
          (if r.line < 0 then sp0.lines - slk.1 - 1 - (i : Int)
           else topCount (st.linesripped.take i)), (0 : Int)) := by
  obtain ⟨-, sp0, atrtab, hopen, h1⟩ := Xinitscr_ret env argc argv st w st' h
  obtain ⟨-, -, cw, -, h2⟩ := layoutOpen_ret env _ _ w st' h1
  obtain ⟨slk, new, strips, hslk, hT, hN, hlen, hrows⟩ := stripsOpen_rows env _ _ w st' h2
  refine ⟨sp0, atrtab, slk, strips, hopen, ?_, ?_, hlen, ?_⟩
  · simpa [initSP] using hslk
  · have hT' : st'.trace = st.trace ++ ([.PDC_scr_open argc argv, .PDC_get_cursor_mode,
        .newwin sp0.lines sp0.cols 0 0] ++ new) := by
      rw [hT]; simp [initSP]
    rw [newCalls_append st st' _ hT', newwinCalls_append, hN]
    simp [newwinCalls, initSP]
  · intro i r hr
    have := hrows i r hr
    simpa [initSP] using this

/-- C12. Top-strip stacking and main-window origin. After a successful
`Xinitscr`, `SP->linesrippedoffontop` is the number of top-anchored registered
strips; the `newwin` calls of the open are the one for `curscr`, one per
registered strip in registration order (`strips`), and last the one for
`stdscr`, `newwin(LINES, COLS, SP->linesrippedoffontop, 0)`; and every
top-anchored strip is created as `newwin(1, COLS, t, 0)` with `t` the number of
top-anchored strips registered before it. -/
theorem C12_top_strip_stacking (env : Env) (argc : Int) (argv : List String)
    (st st' : State) (w : WINDOW)
    (hsucc : Xinitscr env argc argv st = .ret (some w) st') :
    ∃ (sp : SCREEN) (strips : List (Int × Int × Int × Int)),
      st'.SP = some sp ∧
      sp.linesrippedoffontop = topCount st.linesripped ∧
      st'.stdscr = some w ∧
      newwinCalls (newCalls st st') =
        (sp.lines, st'.COLS, 0, 0) :: strips ++
          [(st'.LINES, st'.COLS, sp.linesrippedoffontop, 0)] ∧
      strips.length = st.linesripped.length ∧
      ∀ (i : Nat) (r : RIPPEDOFFLINE), st.linesripped[i]? = some r → ¬ r.line < 0 →
        strips[i]? = some ((1 : Int), st'.COLS, topCount (st.linesripped.take i), (0 : Int)) := by
  obtain ⟨sp1, atr1, slk1, strips, h1, h2, h3, h4, h5⟩ :=
    Xinitscr_strips env argc argv st w st' hsucc
  obtain ⟨-, sp0, atrtab, cw, sw, slk, loop, tail, g1, -, -, -, g5, -, -, g8, -⟩ :=
    Xinitscr_success env argc argv st w st' hsucc
  rw [g1] at h1
  obtain ⟨rfl, rfl⟩ : sp0 = sp1 ∧ atrtab = atr1 := by simpa using h1
  have hslk : slk1 = slk := by rw [h2, g5]
  subst hslk
  subst g8
  refine ⟨_, strips, rfl, rfl, rfl, ?_, h4, ?_⟩
  · rw [h3]; simp [initSP]
  · intro i r hr ht
    have := h5 i r hr
    rw [if_neg ht] at this
    exact this

theorem C12_top_strip_stacking_witness :
    (∃ (sp : SCREEN) (strips : List (Int × Int × Int × Int)),
      demoThreeOpened.SP = some sp ∧
      sp.linesrippedoffontop = topCount demoThree.linesripped ∧
      demoThreeOpened.stdscr = some { addr := 12, _clear := true } ∧
      newwinCalls (newCalls demoThree demoThreeOpened) =
        (sp.lines, demoThreeOpened.COLS, 0, 0) :: strips ++
          [(demoThreeOpened.LINES, demoThreeOpened.COLS, sp.linesrippedoffontop, 0)] ∧
      strips.length = demoThree.linesripped.length ∧
      ∀ (i : Nat) (r : RIPPEDOFFLINE), demoThree.linesripped[i]? = some r → ¬ r.line < 0 →
        strips[i]? =
          some ((1 : Int), demoThreeOpened.COLS, topCount (demoThree.linesripped.take i),
            (0 : Int))) ∧
    newwinCalls (newCalls demoThree demoThreeOpened) =
      [(24, 80, 0, 0), (1, 80, 22, 0), (1, 80, 21, 0), (1, 80, 0, 0), (20, 80, 1, 0)] ∧
    newwinCalls (newCalls (registered [topStrip 0, bottomStrip 1]) demoTopBottom) =
      [(24, 80, 0, 0), (1, 80, 0, 0), (1, 80, 22, 0), (22, 80, 1, 0)] :=
  ⟨C12_top_strip_stacking (demoEnv 24 80 1) 0 [] demoThree demoThreeOpened
      { addr := 12, _clear := true } rfl, rfl, rfl⟩

theorem resizedWindows_append (a b : List Event) :
    resizedWindows (a ++ b) = resizedWindows a ++ resizedWindows b := by
  induction a with
  | nil => rfl
  | cons e rest ih => cases e <;> simp [resizedWindows, ih]

/-- The calls of the status-strip part of `resize_term`: no `newwin`, no
callback, and `resize_window` only for `SP->slk_winptr`. -/
theorem resizeSlk_calls (env : Env) (sp : SCREEN) (st : State) :
    ∃ new : List Event,
      (resizeSlk env sp st).state.trace = st.trace ++ new ∧
      newwinCalls new = [] ∧ initCalls new = [] ∧
      ∀ win ∈ resizedWindows new, win = sp.slk_winptr := by
  unfold resizeSlk
  cases hslk : sp.slk_winptr with
  | none =>
    exact ⟨[.touchwin st.stdscr, .wnoutrefresh st.stdscr], by simp [Outcome.state, log],
      by simp [newwinCalls], by simp [initCalls], by simp [resizedWindows]⟩
  | some slkw =>
    simp only
    cases hw : env.resize_window st.trace (some slkw) sp.slklines st.COLS with
    | none =>
      exact ⟨[.resize_window (some slkw) sp.slklines st.COLS], by simp [Outcome.state, log],
        by simp [newwinCalls], by simp [initCalls], by simp [resizedWindows]⟩
    | some w =>
      exact ⟨[.resize_window (some slkw) sp.slklines st.COLS, .wmove (some w) 0 0,
          .wclrtobot (some w), Event.PDC_slk_initialize, .slk_noutrefresh,
          .touchwin st.stdscr, .wnoutrefresh st.stdscr], by simp [Outcome.state, log],
        by simp [newwinCalls], by simp [initCalls], by simp [resizedWindows]⟩

/-- The calls of lines 316-335: no `newwin`, no callback, and `resize_window`
only for `curscr`, `stdscr` and `SP->slk_winptr`. -/
theorem resizeWindows_calls (env : Env) (sp : SCREEN) (st : State) :
    ∃ new : List Event,
      (resizeWindows env sp st).state.trace = st.trace ++ new ∧
      newwinCalls new = [] ∧ initCalls new = [] ∧
      ∀ win ∈ resizedWindows new, win = st.curscr ∨ win = st.stdscr ∨ win = sp.slk_winptr := by
  by_cases h1 : env.resize_window st.trace st.curscr sp.lines sp.cols = none
  · have key : resizeWindows env sp st = .ret .ERR
        { st with curscr := none,
                  trace := st.trace ++ [.resize_window st.curscr sp.lines sp.cols] } := by
      simp [resizeWindows, log, h1]
    rw [key]
    exact ⟨[.resize_window st.curscr sp.lines sp.cols], rfl, by simp [newwinCalls],
      by simp [initCalls], by simp [resizedWindows]⟩
  · by_cases h2 : env.resize_window (st.trace ++ [.resize_window st.curscr sp.lines sp.cols])
        st.stdscr st.LINES st.COLS = none
    · have key : resizeWindows env sp st = .ret .ERR
          { st with curscr := env.resize_window st.trace st.curscr sp.lines sp.cols,
                    stdscr := none,
                    trace := st.trace ++ [.resize_window st.curscr sp.lines sp.cols,
                      .resize_window st.stdscr st.LINES st.COLS] } := by
        simp [resizeWindows, log, h1, h2]
      rw [key]
      exact ⟨[.resize_window st.curscr sp.lines sp.cols,
          .resize_window st.stdscr st.LINES st.COLS], rfl, by simp [newwinCalls],
        by simp [initCalls], by simp [resizedWindows]⟩
    · obtain ⟨st2, hst2⟩ : ∃ x : State, x =
          { st with curscr := env.resize_window st.trace st.curscr sp.lines sp.cols,
                    stdscr := env.resize_window
                      (st.trace ++ [.resize_window st.curscr sp.lines sp.cols])
                      st.stdscr st.LINES st.COLS,
                    trace := st.trace ++ [.resize_window st.curscr sp.lines sp.cols,
                      .resize_window st.stdscr st.LINES st.COLS] } := ⟨_, rfl⟩
      have key : resizeWindows env sp st = resizeSlk env sp st2 := by
        rw [hst2]
        simp [resizeWindows, log, h1, h2]
      obtain ⟨new, e, a1, a2, a3⟩ := resizeSlk_calls env sp st2
      rw [key, e]
      refine ⟨[.resize_window st.curscr sp.lines sp.cols,
          .resize_window st.stdscr st.LINES st.COLS] ++ new, by rw [hst2]; simp, ?_, ?_, ?_⟩
      · rw [newwinCalls_append, a1]; simp [newwinCalls]
      · rw [initCalls_append, a2]; simp [initCalls]
      · intro win hwin
        rw [resizedWindows_append] at hwin
        simp only [resizedWindows, List.cons_append, List.nil_append, List.mem_cons] at hwin
        rcases hwin with h | h | h
        · exact Or.inl h
        · exact Or.inr (Or.inl h)
        · exact Or.inr (Or.inr (a3 win h))

/-- The calls of `resize_term`, however it ends: no `newwin`, no callback of
`linesripped[]`, and `resize_window` only for `curscr`, `stdscr` and the status
strip `SP->slk_winptr`. -/
theorem resize_term_calls (env : Env) (nlines ncols : Int) (st : State) :
    ∃ new : List Event,
      (resize_term env nlines ncols st).state.trace = st.trace ++ new ∧
      newwinCalls new = [] ∧ initCalls new = [] ∧
      ∀ win ∈ resizedWindows new,
        win = st.curscr ∨ win = st.stdscr ∨ ∃ sp, st.SP = some sp ∧ win = sp.slk_winptr := by
  by_cases hstd : st.stdscr = none
  · exact ⟨[], by simp [resize_term, hstd, Outcome.state], rfl, rfl, by simp [resizedWindows]⟩
  · by_cases hacc : env.PDC_resize_screen st.trace nlines ncols = .ERR
    · exact ⟨[.PDC_resize_screen nlines ncols],
        by simp [resize_term, hstd, hacc, Outcome.state, log],
        by simp [newwinCalls], by simp [initCalls], by simp [resizedWindows]⟩
    · cases hsp : st.SP with
      | none =>
        exact ⟨[.PDC_resize_screen nlines ncols],
          by simp [resize_term, hstd, hacc, hsp, Outcome.state, log],
          by simp [newwinCalls], by simp [initCalls], by simp [resizedWindows]⟩
      | some sp =>
        obtain ⟨st1, hst1⟩ : ∃ x : State, x =
            { st with trace := st.trace ++ [.PDC_resize_screen nlines ncols] } := ⟨_, rfl⟩
        have key : resize_term env nlines ncols st =
            resizeWindows env (storeGeometry env (acknowledgeResize sp) st1).1
              (storeGeometry env (acknowledgeResize sp) st1).2 := by
          rw [hst1]
          simp [resize_term, log, hstd, hacc, hsp]
        obtain ⟨g1, g2⟩ := storeGeometry_eq env (acknowledgeResize sp) st1
        obtain ⟨new, e, a1, a2, a3⟩ :=
          resizeWindows_calls env (storeGeometry env (acknowledgeResize sp) st1).1
            (storeGeometry env (acknowledgeResize sp) st1).2
        rw [key, e]
        refine ⟨[.PDC_resize_screen nlines ncols, .PDC_get_rows, .PDC_get_columns] ++ new,
          by rw [g2, hst1]; simp, ?_, ?_, ?_⟩
        · rw [newwinCalls_append, a1]; simp [newwinCalls]
        · rw [initCalls_append, a2]; simp [initCalls]
        · intro win hwin
          rw [resizedWindows_append] at hwin
          simp only [resizedWindows, List.nil_append] at hwin
          have := a3 win hwin
          rw [g2, g1, hst1] at this
          simp only [acknowledgeResize] at this
          rcases this with h | h | h
          · exact Or.inl h
          · exact Or.inr (Or.inl h)
          · exact Or.inr (Or.inr ⟨sp, rfl, h⟩)

/-- C13 as stated fails. `demoOpened` was opened on 24 x 80 with one bottom
strip: its trace shows the strip window, the one at address 6, created by
`newwin(1, 80, 23, 0)` and handed to callback 0. After the device grew to
30 x 100, `resize_term(0, 0)` returns `OK` having called `resize_window` for
`curscr` and `stdscr` only; no call involves the strip window and no window is
created, so the only `newwin` calls of the whole run are at rows 0, 23 and 0:
the strip is where the open put it, at row 23, and nothing is at row 29. -/
theorem C13_counterexample_strip_not_relocated :
    demoOpened.trace =
        [.PDC_scr_open 0 [], .PDC_get_cursor_mode, .newwin 24 80 0 0, Event.PDC_slk_initialize,
          .newwin 1 80 23 0, .init 0 (some { addr := 6, _clear := true }) 80,
          .newwin 23 80 0 0, .wclrtobot (some { addr := 8, _clear := true }),
          .PDC_init_atrtab, .def_shell_mode] ∧
      resize_term (demoEnv 30 100 0) 0 0 demoOpened = .ret .OK demoResized ∧
      newCalls demoOpened demoResized =
        [.PDC_resize_screen 0 0, .PDC_get_rows, .PDC_get_columns,
          .resize_window (some { addr := 4, _clear := false }) 30 100,
          .resize_window (some { addr := 8, _clear := true }) 29 100,
          .touchwin (some { addr := 16, _clear := true }),
          .wnoutrefresh (some { addr := 16, _clear := true })] ∧
      newwinCalls demoResized.trace = [(24, 80, 0, 0), (1, 80, 23, 0), (23, 80, 0, 0)] ∧
      demoResized.LINES = 29 :=
  ⟨rfl, rfl, rfl, rfl, rfl⟩

/-- C13, amended. `resize_term` leaves the windows of the reserved strips
alone: however the call ends, it makes no `newwin` call, calls no callback of
`linesripped[]`, and calls `resize_window` only for `curscr`, `stdscr` and the
status-strip window `SP->slk_winptr`. A strip window created at open keeps the
row of its `newwin` call. -/
theorem C13_resize_leaves_strip_windows_alone (env : Env) (nlines ncols : Int) (st : State) :
    newwinCalls (newCalls st (resize_term env nlines ncols st).state) = [] ∧
      initCalls (newCalls st (resize_term env nlines ncols st).state) = [] ∧
      ∀ win ∈ resizedWindows (newCalls st (resize_term env nlines ncols st).state),
        win = st.curscr ∨ win = st.stdscr ∨ ∃ sp, st.SP = some sp ∧ win = sp.slk_winptr := by
  obtain ⟨new, e, a1, a2, a3⟩ := resize_term_calls env nlines ncols st
  rw [newCalls_append st _ new e]
  exact ⟨a1, a2, a3⟩

/-- C14. Resize requires a main window: when `stdscr` is `NULL`,
`resize_term(nlines, ncols)` returns `ERR` in the state it was called in. `SP`,
`LINES`, `COLS`, `stdscr` and `curscr` are unchanged and, the trace being part
of the state, `PDC_resize_screen` has not been called. -/
theorem C14_resize_requires_stdscr (env : Env) (nlines ncols : Int) (st : State)
    (hstd : st.stdscr = none) :
    resize_term env nlines ncols st = .ret .ERR st := by
  simp [resize_term, hstd]

theorem C14_resize_requires_stdscr_witness :
    resize_term (demoEnv 30 100 0) 30 100 State.initial = .ret .ERR State.initial ∧
      resize_term (demoEnv 30 100 0) 0 0 demoDeleted = .ret .ERR demoDeleted :=
  ⟨C14_resize_requires_stdscr (demoEnv 30 100 0) 30 100 State.initial rfl,
    C14_resize_requires_stdscr (demoEnv 30 100 0) 0 0 demoDeleted rfl⟩

/-- C15. A successful resize clears the pending-resize flag. For every
session, also one in which the driver has reported a resize by the user
(`SP->resized == TRUE`), when `resize_term` returns `OK`, `is_termresized()`
returns `FALSE` in the state it left. The flag is cleared by the driver's
`PDC_resize_screen` (`acknowledgeResize`, modelled from the spec); no statement
of `resize_term` after that call sets it again. -/
theorem C15_successful_resize_clears_resized (env : Env) (nlines ncols : Int) (st st' : State)
    (hok : resize_term env nlines ncols st = .ret .OK st') :
    is_termresized st' = .ret false st' := by
  have hstd : st.stdscr ≠ none := by
    intro h
    simp [resize_term, h] at hok
  have hacc : env.PDC_resize_screen st.trace nlines ncols ≠ .ERR := by
    intro h
    simp [resize_term, hstd, h] at hok
  cases hsp : st.SP with
  | none => simp [resize_term, hstd, hacc, hsp, log] at hok
  | some sp =>
    obtain ⟨rc1, st1, sp', new, e, hst, -, -, a3, -⟩ :=
      resize_term_spec env nlines ncols st sp hstd hacc hsp
    rw [e] at hok
    simp only [Outcome.ret.injEq] at hok
    obtain ⟨-, rfl⟩ := hok
    have hSP : st1.SP = some sp' := by rw [hst]
    simp [is_termresized, hSP, a3]

theorem C15_successful_resize_clears_resized_witness :
    is_termresized demoFlagged = .ret true demoFlagged ∧
      resize_term (demoEnv 30 100 0) 0 0 demoFlagged = .ret .OK demoAcknowledged ∧
      demoAcknowledged.LINES = 29 ∧
      is_termresized demoAcknowledged = .ret false demoAcknowledged :=
  ⟨rfl, rfl, rfl,
    C15_successful_resize_clears_resized (demoEnv 30 100 0) 0 0 demoFlagged demoAcknowledged rfl⟩

/-- Once `curscr` exists, the open either exits or returns a window: it never
returns `NULL`. -/
theorem stripsOpen_not_null (env : Env) (sp : SCREEN) (st st' : State)
    (h : stripsOpen env sp st = .ret none st') : False := by
  have key : ∀ sp2 st2, stdscrOpen env sp2 st2 = .ret none st' → False := by
    intro sp2 st2 h2
    unfold stdscrOpen at h2
    simp only at h2
    cases hsw : env.newwin st2.trace st2.LINES st2.COLS sp2.linesrippedoffontop 0 with
    | none => simp [hsw] at h2
    | some sw =>
      simp only [hsw] at h2
      rw [finishOpen_eq env sp2 sw _ rfl] at h2
      simp at h2
  exact key _ _ h

/-- From a closed state `Xinitscr` never returns `NULL`: only the guard at line
135 does. -/
theorem Xinitscr_closed_not_null (env : Env) (argc : Int) (argv : List String)
    (st st' : State) (hclosed : st.isOpen = false)
    (h : Xinitscr env argc argv st = .ret none st') : False := by
  cases hop : env.PDC_scr_open st.trace argc argv with
  | none =>
    have hc : ¬ (match st.SP with
        | some sp => sp.alive
        | none => false) = true := by
      have : st.isOpen = (match st.SP with
        | some sp => sp.alive
        | none => false) := rfl
      rw [← this, hclosed]
      simp
    unfold Xinitscr at h
    rw [if_neg hc] at h
    simp [hop] at h
  | some r =>
    obtain ⟨sp0, atrtab⟩ := r
    rw [Xinitscr_opened env argc argv st sp0 atrtab hclosed hop] at h
    unfold layoutOpen at h
    simp only at h
    split at h
    · simp at h
    · split at h
      · simp at h
      · exact stripsOpen_not_null env _ _ _ h

/-- C16. Full teardown clears the singleton, and only for the current session.
For an existing session, `delscreen(SP)` calls `delwin(stdscr)` and
`delwin(curscr)` and returns with `SP`, `stdscr`, `curscr` and `pdc_atrtab` all
`NULL`, everything else as it was; a later `Xinitscr` from that state is not
turned away by the guard for an open session (it never returns `NULL`). For
every state and every pointer other than `SP`, `delscreen` returns in the state
it was called in, so nothing changed and no window was destroyed. -/
theorem C16_delscreen_clears_singleton (st : State) (sp : SCREEN) (hsp : st.SP = some sp) :
    delscreen (some sp.addr) st =
        .ret ()
          { st with SP := none, stdscr := none, curscr := none, pdc_atrtab := none,
                    trace := st.trace ++
                      [.PDC_slk_free, .delwin st.stdscr, .delwin st.curscr, .PDC_scr_free] } ∧
      (∀ (env : Env) (argc : Int) (argv : List String) (st' : State),
        Xinitscr env argc argv
            { st with SP := none, stdscr := none, curscr := none, pdc_atrtab := none,
                      trace := st.trace ++
                        [.PDC_slk_free, .delwin st.stdscr, .delwin st.curscr, .PDC_scr_free] } ≠
          .ret none st') ∧
      (∀ (st2 : State) (p : Option Nat), p ≠ st2.SP.map SCREEN.addr →
        delscreen p st2 = .ret () st2) := by
  refine ⟨by simp [delscreen, hsp, log], ?_, ?_⟩
  · intro env argc argv st' h
    refine Xinitscr_closed_not_null env argc argv _ st' ?_ h
    rfl
  · intro st2 p hp
    simp [delscreen, hp]

theorem C16_delscreen_clears_singleton_witness :
    delscreen (some demoOpenedSP.addr) demoOpened =
        .ret ()
          { demoOpened with
            SP := none, stdscr := none, curscr := none, pdc_atrtab := none,
            trace := demoOpened.trace ++
              [.PDC_slk_free, .delwin demoOpened.stdscr, .delwin demoOpened.curscr,
                .PDC_scr_free] } ∧
      (∀ (env : Env) (argc : Int) (argv : List String) (st' : State),
        Xinitscr env argc argv
            { demoOpened with
              SP := none, stdscr := none, curscr := none, pdc_atrtab := none,
              trace := demoOpened.trace ++
                [.PDC_slk_free, .delwin demoOpened.stdscr, .delwin demoOpened.curscr,
                  .PDC_scr_free] } ≠
          .ret none st') ∧
      (∀ (st2 : State) (p : Option Nat), p ≠ st2.SP.map SCREEN.addr →
        delscreen p st2 = .ret () st2) :=
  C16_delscreen_clears_singleton demoOpened demoOpenedSP rfl

/-- When `newwin` returns a window for `stdscr`, lines 198-232 return it. -/
theorem stdscrOpen_some (env : Env) (sp : SCREEN) (st : State)
    (h : env.newwin st.trace st.LINES st.COLS sp.linesrippedoffontop 0 ≠ none) :
    ∃ (w : WINDOW) (st' : State), stdscrOpen env sp st = .ret (some w) st' := by
  unfold stdscrOpen
  simp only
  cases hsw : env.newwin st.trace st.LINES st.COLS sp.linesrippedoffontop 0 with
  | none => exact absurd hsw h
  | some sw =>
    simp only
    rw [finishOpen_eq env sp sw _ rfl]
    exact ⟨_, _, rfl⟩

/-- From a closed state, when the driver opens the device with a geometry of
at least 2 x 2 and `newwin` returns a window for `curscr`, `Xinitscr` reaches
line 198 with the `SCREEN` and the state of `reachStdscr`. -/
theorem Xinitscr_reach (env : Env) (argc : Int) (argv : List String) (st : State)
    (sp0 : SCREEN) (atrtab : Option Nat) (hclosed : st.isOpen = false)
    (hopen : env.PDC_scr_open st.trace argc argv = some (sp0, atrtab))
    (hH : 2 ≤ sp0.lines) (hW : 2 ≤ sp0.cols)
    (hcur : env.newwin (st.trace ++ [.PDC_scr_open argc argv, .PDC_get_cursor_mode])
      sp0.lines sp0.cols 0 0 ≠ none) :
    Xinitscr env argc argv st =
      stdscrOpen env (reachStdscr env argc argv st sp0 atrtab).1
        (reachStdscr env argc argv st sp0 atrtab).2 := by
  have hsmall : ¬ (sp0.lines < 2 ∨ sp0.cols < 2) := by
    push_neg
    exact ⟨hH, hW⟩
  rw [Xinitscr_opened env argc argv st sp0 atrtab hclosed hopen]
  simp [layoutOpen, stripsOpen, reachStdscr, log, initSP, hsmall, hcur]

/-- C17. Open postcondition. From a closed state, when the driver opens the
device with a geometry of at least 2 x 2 and window creation succeeds, that is
`newwin` returns a window to the call for `curscr` (line 170) and to the call
for `stdscr` (line 200, made in the state `reachStdscr`), `Xinitscr` returns
`stdscr`, which is not `NULL`, with `SP->alive` set, `SP->resized` clear,
`SP->orig_cursor` the mode `PDC_get_cursor_mode()` answered during this open,
and no pending registration (`linesrippedoff = 0`); the session is open.
Nothing is asked of the strip windows, which may be `NULL`. -/
theorem C17_open_postcondition (env : Env) (argc : Int) (argv : List String) (st : State)
    (sp0 : SCREEN) (atrtab : Option Nat) (hclosed : st.isOpen = false)
    (hopen : env.PDC_scr_open st.trace argc argv = some (sp0, atrtab))
    (hH : 2 ≤ sp0.lines) (hW : 2 ≤ sp0.cols)
    (hcur : env.newwin (st.trace ++ [.PDC_scr_open argc argv, .PDC_get_cursor_mode])
      sp0.lines sp0.cols 0 0 ≠ none)
    (hstd : env.newwin (reachStdscr env argc argv st sp0 atrtab).2.trace
      (reachStdscr env argc argv st sp0 atrtab).2.LINES
      (reachStdscr env argc argv st sp0 atrtab).2.COLS
      (reachStdscr env argc argv st sp0 atrtab).1.linesrippedoffontop 0 ≠ none) :
    ∃ (w : WINDOW) (st' : State) (sp : SCREEN),
      Xinitscr env argc argv st = .ret (some w) st' ∧
      st'.stdscr = some w ∧
      st'.SP = some sp ∧
      sp.alive = true ∧
      sp.resized = false ∧
      sp.orig_cursor = env.PDC_get_cursor_mode (st.trace ++ [.PDC_scr_open argc argv]) ∧
      st'.linesripped = [] ∧
      st'.isOpen = true := by
  obtain ⟨w, st', h⟩ : ∃ (w : WINDOW) (st' : State),
      Xinitscr env argc argv st = .ret (some w) st' := by
    rw [Xinitscr_reach env argc argv st sp0 atrtab hclosed hopen hH hW hcur]
    exact stdscrOpen_some env _ _ hstd
  obtain ⟨-, sp1, atr1, cw, sw, slk, loop, tail, -, -, -, -, -, -, -, h8, -⟩ :=
    Xinitscr_success env argc argv st w st' h
  refine ⟨w, st', _, h, ?_, by rw [h8], ?_, ?_, ?_, ?_, ?_⟩
  · rw [h8]
  · rfl
  · rfl
  · rfl
  · rw [h8]
  · rw [h8]; rfl

theorem C17_open_postcondition_witness :
    ∃ (w : WINDOW) (st' : State) (sp : SCREEN),
      Xinitscr (demoEnv 24 80 0) 0 [] (registered [bottomStrip 0]) = .ret (some w) st' ∧
      st'.stdscr = some w ∧
      st'.SP = some sp ∧
      sp.alive = true ∧
      sp.resized = false ∧
      sp.orig_cursor = (demoEnv 24 80 0).PDC_get_cursor_mode
        ((registered [bottomStrip 0]).trace ++ [.PDC_scr_open 0 []]) ∧
      st'.linesripped = [] ∧
      st'.isOpen = true :=
  C17_open_postcondition (demoEnv 24 80 0) 0 [] (registered [bottomStrip 0])
    (freshScreen 24 80) (some 1) rfl rfl (by decide) (by decide)
    (Option.some_ne_none _) (Option.some_ne_none _)

/-- C18 as stated fails. On the open session `demoOpened` (24 x 80, one bottom
strip) the driver accepts the resize and reports 30 x 100, and then
`resize_window` fails for `curscr`. `resize_term(0, 0)` returns `ERR` with
`SP->lines = 30` (was 24), `SP->cols = COLS = 100` (was 80), `LINES = 29`
(was 23) and `curscr = NULL`. -/
theorem C18_counterexample_window_failure_not_rolled_back :
    demoOpened.SP = some demoOpenedSP ∧ demoOpenedSP.lines = 24 ∧ demoOpenedSP.cols = 80 ∧
      demoOpened.LINES = 23 ∧ demoOpened.COLS = 80 ∧
      demoOpened.curscr = some { addr := 4, _clear := false } ∧
      resize_term failingEnv 0 0 demoOpened =
        .ret .ERR
          { demoOpened with
            SP := some { demoOpenedSP with lines := 30, cols := 100 },
            LINES := 29,
            COLS := 100,
            curscr := none,
            trace := demoOpened.trace ++
              [.PDC_resize_screen 0 0, .PDC_get_rows, .PDC_get_columns,
                .resize_window (some { addr := 4, _clear := false }) 30 100] } :=
  ⟨rfl, rfl, rfl, rfl, rfl, rfl, rfl⟩

/-- C18, amended. `resize_term` is all-or-nothing only for the failures found
at line 309. When it returns `ERR` because `stdscr` is `NULL` or because the
driver rejected the request, `SP` (with `SP->lines`, `SP->cols`), `LINES`,
`COLS`, `stdscr` and `curscr` are those of before the call. When it returns
`ERR` after the driver accepted the request, the geometry the driver reports
is already stored in `SP->lines`, `SP->cols`, `LINES` and `COLS`, and the
pointer whose `resize_window` call failed (`curscr`, `stdscr` or
`SP->slk_winptr`) is `NULL`. -/
theorem C18_resize_atomic_only_before_geometry_is_stored (env : Env) (nlines ncols : Int)
    (st st' : State) (sp : SCREEN) (hsp : st.SP = some sp)
    (herr : resize_term env nlines ncols st = .ret .ERR st') :
    ((st.stdscr = none ∨ env.PDC_resize_screen st.trace nlines ncols = .ERR) ∧
        st'.SP = st.SP ∧ st'.LINES = st.LINES ∧ st'.COLS = st.COLS ∧
        st'.stdscr = st.stdscr ∧ st'.curscr = st.curscr) ∨
      (st.stdscr ≠ none ∧ env.PDC_resize_screen st.trace nlines ncols ≠ .ERR ∧
        ∃ sp' : SCREEN, st'.SP = some sp' ∧
          sp'.lines = reportedRows env nlines ncols st ∧
          sp'.cols = reportedCols env nlines ncols st ∧
          st'.LINES = reportedRows env nlines ncols st - sp.linesrippedoff - sp.slklines ∧
          st'.COLS = reportedCols env nlines ncols st ∧
          (st'.curscr = none ∨ st'.stdscr = none ∨
            (sp.slk_winptr ≠ none ∧ sp'.slk_winptr = none))) := by
  by_cases hstd : st.stdscr = none
  · have e : resize_term env nlines ncols st = .ret .ERR st := by simp [resize_term, hstd]
    rw [e] at herr
    simp only [Outcome.ret.injEq, true_and] at herr
    subst herr
    exact Or.inl ⟨Or.inl hstd, rfl, rfl, rfl, rfl, rfl⟩
  · by_cases hacc : env.PDC_resize_screen st.trace nlines ncols = .ERR
    · have e : resize_term env nlines ncols st =
          .ret .ERR { st with trace := st.trace ++ [.PDC_resize_screen nlines ncols] } := by
        simp [resize_term, hstd, hacc, log]
      rw [e] at herr
      simp only [Outcome.ret.injEq, true_and] at herr
      subst herr
      exact Or.inl ⟨Or.inr hacc, rfl, rfl, rfl, rfl, rfl⟩
    · obtain ⟨rc, st1, sp', new, e, hst, -, -, -, a4, a5, -, -, -, -, a10, -⟩ :=
        resize_term_spec env nlines ncols st sp hstd hacc hsp
      rw [e] at herr
      simp only [Outcome.ret.injEq] at herr
      obtain ⟨rfl, rfl⟩ := herr
      exact Or.inr ⟨hstd, hacc, sp', by rw [hst], a4, a5, by rw [hst], by rw [hst], a10 rfl⟩

theorem C18_resize_atomic_only_before_geometry_is_stored_witness :
    ((demoOpened.stdscr = none ∨
          failingEnv.PDC_resize_screen demoOpened.trace 0 0 = .ERR) ∧
        (resize_term failingEnv 0 0 demoOpened).state.SP = demoOpened.SP ∧
        (resize_term failingEnv 0 0 demoOpened).state.LINES = demoOpened.LINES ∧
        (resize_term failingEnv 0 0 demoOpened).state.COLS = demoOpened.COLS ∧
        (resize_term failingEnv 0 0 demoOpened).state.stdscr = demoOpened.stdscr ∧
        (resize_term failingEnv 0 0 demoOpened).state.curscr = demoOpened.curscr) ∨
      (demoOpened.stdscr ≠ none ∧
        failingEnv.PDC_resize_screen demoOpened.trace 0 0 ≠ .ERR ∧
        ∃ sp' : SCREEN, (resize_term failingEnv 0 0 demoOpened).state.SP = some sp' ∧
          sp'.lines = reportedRows failingEnv 0 0 demoOpened ∧
          sp'.cols = reportedCols failingEnv 0 0 demoOpened ∧
          (resize_term failingEnv 0 0 demoOpened).state.LINES =
            reportedRows failingEnv 0 0 demoOpened
              - demoOpenedSP.linesrippedoff - demoOpenedSP.slklines ∧
          (resize_term failingEnv 0 0 demoOpened).state.COLS =
            reportedCols failingEnv 0 0 demoOpened ∧
          ((resize_term failingEnv 0 0 demoOpened).state.curscr = none ∨
            (resize_term failingEnv 0 0 demoOpened).state.stdscr = none ∨
            (demoOpenedSP.slk_winptr ≠ none ∧ sp'.slk_winptr = none))) :=
  C18_resize_atomic_only_before_geometry_is_stored failingEnv 0 0 demoOpened
    (resize_term failingEnv 0 0 demoOpened).state demoOpenedSP rfl rfl

/-- C19, evaluated where it fails. On a 24 x 80 device without status strip,
with a top strip registered before a bottom strip, `Xinitscr` succeeds with
`SP->linesrippedoffontop = 1` and `LINES = 22`: `stdscr` is created by
`newwin(22, 80, 1, 0)` and covers rows 1 to 22, and the bottom strip is created
by `newwin(1, 80, 22, 0)`, at row 22, inside `stdscr`; row 23 belongs to no
window. On a 4 x 80 device with two top strips before a bottom strip the second
top strip and the bottom strip are both created at row 1. -/
theorem C19_strip_overlaps_stdscr_after_top_strip :
    (Xinitscr (demoEnv 24 80 0) 0 [] (registered [topStrip 0, bottomStrip 1]) =
        .ret (some { addr := 10, _clear := true }) demoTopBottom ∧
      demoTopBottom.SP.map SCREEN.linesrippedoffontop = some 1 ∧
      demoTopBottom.LINES = 22 ∧
      newwinCalls (newCalls (registered [topStrip 0, bottomStrip 1]) demoTopBottom) =
        [(24, 80, 0, 0), (1, 80, 0, 0), (1, 80, 22, 0), (22, 80, 1, 0)] ∧
      (1 : Int) ≤ 22 ∧ (22 : Int) < 1 + demoTopBottom.LINES) ∧
    (Xinitscr (demoEnv 4 80 0) 0 [] (registered [topStrip 0, topStrip 1, bottomStrip 2]) =
        .ret (some { addr := 12, _clear := true }) demoTopTopBottom ∧
      newwinCalls
          (newCalls (registered [topStrip 0, topStrip 1, bottomStrip 2]) demoTopTopBottom) =
        [(4, 80, 0, 0), (1, 80, 0, 0), (1, 80, 1, 0), (1, 80, 1, 0), (1, 80, 2, 0)]) :=
  ⟨⟨rfl, rfl, rfl, rfl, by decide, by decide⟩, ⟨rfl, rfl⟩⟩

/-- C20, evaluated where it fails. With no session (`SP == NULL`),
`delscreen(NULL)` passes the test `sp != SP`, calls `PDC_slk_free()`,
`delwin(stdscr)` and `delwin(curscr)` on `NULL` windows and then executes
`SP->alive = FALSE` on the `NULL` pointer. This is the only way in: `delscreen`
dereferences a `NULL` `SP` exactly when it is called with `NULL` while there is
no session. -/
theorem C20_delscreen_null_dereferences_null_SP :
    State.initial.SP = none ∧
      delscreen none State.initial =
        .fault { State.initial with
                 trace := [.PDC_slk_free, .delwin none, .delwin none] } ∧
      ∀ (p : Option Nat) (st : State),
        (∃ st', delscreen p st = .fault st') ↔ (p = none ∧ st.SP = none) := by
  refine ⟨rfl, rfl, ?_⟩
  intro p st
  constructor
  · rintro ⟨st', h⟩
    by_cases hp : p ≠ st.SP.map SCREEN.addr
    · simp [delscreen, hp] at h
    · have hp' : p = st.SP.map SCREEN.addr := not_not.mp hp
      cases hsp : st.SP with
      | none => exact ⟨by rw [hp', hsp]; rfl, rfl⟩
      | some sp => simp [delscreen, hp', hsp, log] at h
  · rintro ⟨rfl, hsp⟩
    exact ⟨{ st with stdscr := none, curscr := none,
                     trace := st.trace ++ [.PDC_slk_free, .delwin st.stdscr, .delwin st.curscr] },
      by simp [delscreen, hsp, log]⟩

end PDCurses
